import Mathlib

/-!
# Riru: the JNI trampolines of `core/src/main/cpp/jni_native_method.cpp`

A shallow embedding of the uid filter, the three hook dispatchers (pre and post
each), the signature trampolines and the `SystemProperties.set` guard, followed
by the properties proved about them.

Conventions of the embedding.

* `jint`, `uid_t`, `gid_t` and `jlong` values are `Int`; the only arithmetic in
  the file is `uid % 100000`, the C++ remainder (truncated towards zero), which
  is `Int.tmod`.
* A JNI reference (`jintArray`, `jobjectArray`, `jstring`) is an opaque handle:
  `none` is `nullptr`.
* `jboolean` is `Bool`, `JNI_FALSE` is `false`.
* The handles `env` and `clazz` are handed unchanged to every callee and are
  left out of the argument lists.
* Every call that leaves the file (a plugin hook, a plugin uid filter, the
  original native function, `restore_replaced_func`, the logger) is recorded as
  an `Event`; a function returns the events it produced in the order of the calls.
-/

namespace Riru

/-- A JNI reference; `none` is `nullptr`. -/
abbrev jobject := Option Nat

/-- The constant `JNI_FALSE`. -/
abbrev JNI_FALSE : Bool := false

/-- The canonical parameters of `nativeForkAndSpecialize_pre`, in the order of its
parameter list (all of them passed by reference). -/
structure ForkAndSpecializeArgs where
  uid : Int
  gid : Int
  gids : jobject
  runtime_flags : Int
  rlimits : jobject
  mount_external : Int
  se_info : jobject
  se_name : jobject
  fdsToClose : jobject
  fdsToIgnore : jobject
  is_child_zygote : Bool
  instructionSet : jobject
  appDataDir : jobject
  isTopApp : Bool
  pkgDataInfoList : jobject
  whitelistedDataInfoList : jobject
  bindMountAppDataDirs : Bool
  bindMountAppStorageDirs : Bool
  deriving DecidableEq, Repr

/-- The parameters of `nativeSpecializeAppProcess_pre`, in the order of its
parameter list. -/
structure SpecializeAppProcessArgs where
  uid : Int
  gid : Int
  gids : jobject
  runtimeFlags : Int
  rlimits : jobject
  mountExternal : Int
  seInfo : jobject
  niceName : jobject
  startChildZygote : Bool
  instructionSet : jobject
  appDataDir : jobject
  isTopApp : Bool
  pkgDataInfoList : jobject
  whitelistedDataInfoList : jobject
  bindMountAppDataDirs : Bool
  bindMountAppStorageDirs : Bool
  deriving DecidableEq, Repr

/-- The parameters of `nativeForkSystemServer_pre`, in the order of its parameter
list. -/
structure ForkSystemServerArgs where
  uid : Int
  gid : Int
  gids : jobject
  debug_flags : Int
  rlimits : jobject
  permittedCapabilities : Int
  effectiveCapabilities : Int
  deriving DecidableEq, Repr

/-- Modelled from the spec: the plugin type of `module.h`, which is not among the
sources. A plugin has a name (diagnostic only), one presence flag per capability
(`hasXxx()`), and an entry point per declared capability. A pre-hook receives a
pointer to every canonical field and may rewrite any of them: it is a function
from the fields it is shown to the fields it leaves. The uid filter is a pure
predicate of the uid (`true` means skip). A post-hook returns nothing and writes
nothing the dispatcher reads, so its call is described by its `Event` alone. -/
structure Module where
  name : String
  hasShouldSkipUid : Bool
  shouldSkipUid : Int → Bool
  hasForkAndSpecializePre : Bool
  forkAndSpecializePre : ForkAndSpecializeArgs → ForkAndSpecializeArgs
  hasForkAndSpecializePost : Bool
  hasSpecializeAppProcessPre : Bool
  specializeAppProcessPre : SpecializeAppProcessArgs → SpecializeAppProcessArgs
  hasSpecializeAppProcessPost : Bool
  hasForkSystemServerPre : Bool
  forkSystemServerPre : ForkSystemServerArgs → ForkSystemServerArgs
  hasForkSystemServerPost : Bool

/-- One argument of a call through a registered native method pointer. -/
inductive JValue where
  | jint (v : Int)
  | jlong (v : Int)
  | jboolean (v : Bool)
  | jobject (v : jobject)
  deriving DecidableEq, Repr

/-- A call that leaves this file. The number `i` of a plugin event is the position
of the plugin in `get_modules()`; the arguments are those of the call. -/
inductive Event where
  /-- The static `shouldSkipUid(uid)`, evaluated for plugin `i`. -/
  | shouldSkipUid (i : Nat) (uid : Int)
  /-- The plugin filter `module->shouldSkipUid(uid)`. -/
  | moduleShouldSkipUid (i : Nat) (uid : Int)
  | forkAndSpecializePre (i : Nat) (args : ForkAndSpecializeArgs)
  | forkAndSpecializePost (i : Nat) (res : Int)
  | specializeAppProcessPre (i : Nat) (args : SpecializeAppProcessArgs)
  | specializeAppProcessPost (i : Nat)
  | forkSystemServerPre (i : Nat) (args : ForkSystemServerArgs)
  | forkSystemServerPost (i : Nat) (res : Int)
  | restore_replaced_func
  | LOGD (msg : String)
  | LOGW (msg : String)
  /-- The call through `fnPtr` of the registered original, with its argument list. -/
  | fnPtr (args : List JValue)
  | ExceptionDescribe
  | ExceptionClear
  deriving DecidableEq, Repr

/-- The static `shouldSkipUid`: `uid % 100000` is the C++ remainder. -/
def shouldSkipUid (uid : Int) : Int :=
  let appId := Int.tmod uid 100000
  if appId ≥ 10000 ∧ appId ≤ 19999 then 0 else 1

/-- The loop `for (auto module : *get_modules())`: `body i module s` is one pass of
the loop body for the plugin at position `i`, started in the state `s` of the
variables the body may write; it gives their state after the pass and the calls
made. A `continue` ends the pass. -/
def forEachModule {σ : Type} (body : Nat → Module → σ → σ × List Event) :
    Nat → List Module → σ → σ × List Event
  | _, [], s => (s, [])
  | i, module :: rest, s =>
    let r := body i module s
    let r2 := forEachModule body (i + 1) rest r.1
    (r2.1, r.2 ++ r2.2)

/-! ## The hook dispatchers -/

/-- The body of the loop of `nativeForkAndSpecialize_pre`. The variable written is
the tuple of the eighteen reference parameters. The two filter tests follow the
short-circuit evaluation of `&&`: a filter is called only when the flag test to
its left succeeds. -/
def nativeForkAndSpecialize_pre.body (i : Nat) (module : Module)
    (a : ForkAndSpecializeArgs) : ForkAndSpecializeArgs × List Event :=
  if !module.hasForkAndSpecializePre then (a, [])
  else
    let c1 : Bool × List Event :=
      if module.hasShouldSkipUid then
        (module.shouldSkipUid a.uid, [Event.moduleShouldSkipUid i a.uid])
      else (false, [])
    if c1.1 then (a, c1.2)
    else
      let c2 : Bool × List Event :=
        if !module.hasShouldSkipUid then
          (decide (shouldSkipUid a.uid ≠ 0), [Event.shouldSkipUid i a.uid])
        else (false, [])
      if c2.1 then (a, c1.2 ++ c2.2)
      else
        (module.forkAndSpecializePre a,
          c1.2 ++ c2.2 ++ [Event.forkAndSpecializePre i a])

/-- The dispatcher `nativeForkAndSpecialize_pre`: the values of the reference
parameters when it returns, and the calls made. -/
def nativeForkAndSpecialize_pre (modules : List Module) (a : ForkAndSpecializeArgs) :
    ForkAndSpecializeArgs × List Event :=
  forEachModule nativeForkAndSpecialize_pre.body 0 modules a

/-- The body of the loop of `nativeForkAndSpecialize_post`; the body writes no
variable. -/
def nativeForkAndSpecialize_post.body (uid res : Int) (i : Nat) (module : Module)
    (s : Unit) : Unit × List Event :=
  if !module.hasForkAndSpecializePost then (s, [])
  else
    let c1 : Bool × List Event :=
      if module.hasShouldSkipUid then
        (module.shouldSkipUid uid, [Event.moduleShouldSkipUid i uid])
      else (false, [])
    if c1.1 then (s, c1.2)
    else
      let c2 : Bool × List Event :=
        if !module.hasShouldSkipUid then
          (decide (shouldSkipUid uid ≠ 0), [Event.shouldSkipUid i uid])
        else (false, [])
      if c2.1 then (s, c1.2 ++ c2.2)
      else
        (s, c1.2 ++ c2.2
          ++ (if res = 0 then [Event.LOGD (module.name ++ ": forkAndSpecializePost")] else [])
          ++ [Event.forkAndSpecializePost i res])

/-- The dispatcher `nativeForkAndSpecialize_post`. -/
def nativeForkAndSpecialize_post (modules : List Module) (uid res : Int) : List Event :=
  (if res = 0 then [Event.restore_replaced_func] else [])
    ++ (forEachModule (nativeForkAndSpecialize_post.body uid res) 0 modules ()).2

/-- The body of the loop of `nativeSpecializeAppProcess_pre`. The hook is handed
the address of every parameter of the dispatcher, so within the loop all sixteen
are variables the body writes. -/
def nativeSpecializeAppProcess_pre.body (i : Nat) (module : Module)
    (a : SpecializeAppProcessArgs) : SpecializeAppProcessArgs × List Event :=
  if !module.hasSpecializeAppProcessPre then (a, [])
  else (module.specializeAppProcessPre a, [Event.specializeAppProcessPre i a])

/-- The dispatcher `nativeSpecializeAppProcess_pre`. Its first eleven parameters
(`uid` to `appDataDir`) are passed by value and the last five by reference: when
it returns, the caller sees the values the loop left in the five reference
parameters and its own values in the other eleven. -/
def nativeSpecializeAppProcess_pre (modules : List Module) (a : SpecializeAppProcessArgs) :
    SpecializeAppProcessArgs × List Event :=
  let r := forEachModule nativeSpecializeAppProcess_pre.body 0 modules a
  ({ a with
      isTopApp := r.1.isTopApp
      pkgDataInfoList := r.1.pkgDataInfoList
      whitelistedDataInfoList := r.1.whitelistedDataInfoList
      bindMountAppDataDirs := r.1.bindMountAppDataDirs
      bindMountAppStorageDirs := r.1.bindMountAppStorageDirs }, r.2)

/-- The body of the loop of `nativeSpecializeAppProcess_post`. -/
def nativeSpecializeAppProcess_post.body (i : Nat) (module : Module) (s : Unit) :
    Unit × List Event :=
  if !module.hasSpecializeAppProcessPost then (s, [])
  else
    (s, [Event.LOGD (module.name ++ ": specializeAppProcessPost"),
         Event.specializeAppProcessPost i])

/-- The dispatcher `nativeSpecializeAppProcess_post`. -/
def nativeSpecializeAppProcess_post (modules : List Module) : List Event :=
  [Event.restore_replaced_func]
    ++ (forEachModule nativeSpecializeAppProcess_post.body 0 modules ()).2

/-- The body of the loop of `nativeForkSystemServer_pre`. -/
def nativeForkSystemServer_pre.body (i : Nat) (module : Module)
    (a : ForkSystemServerArgs) : ForkSystemServerArgs × List Event :=
  if !module.hasForkSystemServerPre then (a, [])
  else (module.forkSystemServerPre a, [Event.forkSystemServerPre i a])

/-- The dispatcher `nativeForkSystemServer_pre` (all parameters by reference). -/
def nativeForkSystemServer_pre (modules : List Module) (a : ForkSystemServerArgs) :
    ForkSystemServerArgs × List Event :=
  forEachModule nativeForkSystemServer_pre.body 0 modules a

/-- The body of the loop of `nativeForkSystemServer_post`. -/
def nativeForkSystemServer_post.body (res : Int) (i : Nat) (module : Module) (s : Unit) :
    Unit × List Event :=
  if !module.hasForkSystemServerPost then (s, [])
  else
    (s, (if res = 0 then [Event.LOGD (module.name ++ ": forkSystemServerPost")] else [])
          ++ [Event.forkSystemServerPost i res])

/-- The dispatcher `nativeForkSystemServer_post`. -/
def nativeForkSystemServer_post (modules : List Module) (res : Int) : List Event :=
  (forEachModule (nativeForkSystemServer_post.body res) 0 modules ()).2

/-! ## The signature trampolines -/

/-- The trampoline `nativeForkAndSpecialize_marshmallow`: the value returned and the
calls made. The result of the original is a function `fnPtr` of its arguments. -/
def nativeForkAndSpecialize_marshmallow (modules : List Module) (fnPtr : List JValue → Int)
    (uid : Int) (gid : Int) (gids : jobject) (debug_flags : Int) (rlimits : jobject)
    (mount_external : Int) (se_info : jobject) (se_name : jobject) (fdsToClose : jobject)
    (instructionSet : jobject) (appDataDir : jobject) :
    Int × List Event :=
  let fdsToIgnore : jobject := none
  let is_child_zygote : Bool := JNI_FALSE
  let isTopApp : Bool := JNI_FALSE
  let pkgDataInfoList : jobject := none
  let whitelistedDataInfoList : jobject := none
  let bindMountAppDataDirs : Bool := JNI_FALSE
  let bindMountAppStorageDirs : Bool := JNI_FALSE
  let pre := nativeForkAndSpecialize_pre modules
    ⟨uid, gid, gids, debug_flags, rlimits, mount_external, se_info, se_name, fdsToClose,
    fdsToIgnore, is_child_zygote, instructionSet, appDataDir, isTopApp, pkgDataInfoList,
    whitelistedDataInfoList, bindMountAppDataDirs, bindMountAppStorageDirs⟩
  let a := pre.1
  let call : List JValue :=
    [.jint a.uid, .jint a.gid, .jobject a.gids, .jint a.runtime_flags, .jobject a.rlimits,
    .jint a.mount_external, .jobject a.se_info, .jobject a.se_name, .jobject a.fdsToClose,
    .jobject a.instructionSet, .jobject a.appDataDir]
  let res := fnPtr call
  (res, pre.2 ++ [Event.fnPtr call] ++ nativeForkAndSpecialize_post modules a.uid res)

/-- The trampoline `nativeForkAndSpecialize_oreo`: the value returned and the
calls made. The result of the original is a function `fnPtr` of its arguments. -/
def nativeForkAndSpecialize_oreo (modules : List Module) (fnPtr : List JValue → Int)
    (uid : Int) (gid : Int) (gids : jobject) (debug_flags : Int) (rlimits : jobject)
    (mount_external : Int) (se_info : jobject) (se_name : jobject) (fdsToClose : jobject)
    (fdsToIgnore : jobject) (instructionSet : jobject) (appDataDir : jobject) :
    Int × List Event :=
  let is_child_zygote : Bool := JNI_FALSE
  let isTopApp : Bool := JNI_FALSE
  let pkgDataInfoList : jobject := none
  let whitelistedDataInfoList : jobject := none
  let bindMountAppDataDirs : Bool := JNI_FALSE
  let bindMountAppStorageDirs : Bool := JNI_FALSE
  let pre := nativeForkAndSpecialize_pre modules
    ⟨uid, gid, gids, debug_flags, rlimits, mount_external, se_info, se_name, fdsToClose,
    fdsToIgnore, is_child_zygote, instructionSet, appDataDir, isTopApp, pkgDataInfoList,
    whitelistedDataInfoList, bindMountAppDataDirs, bindMountAppStorageDirs⟩
  let a := pre.1
  let call : List JValue :=
    [.jint a.uid, .jint a.gid, .jobject a.gids, .jint a.runtime_flags, .jobject a.rlimits,
    .jint a.mount_external, .jobject a.se_info, .jobject a.se_name, .jobject a.fdsToClose,
    .jobject a.fdsToIgnore, .jobject a.instructionSet, .jobject a.appDataDir]
  let res := fnPtr call
  (res, pre.2 ++ [Event.fnPtr call] ++ nativeForkAndSpecialize_post modules a.uid res)

/-- The trampoline `nativeForkAndSpecialize_p`: the value returned and the
calls made. The result of the original is a function `fnPtr` of its arguments. -/
def nativeForkAndSpecialize_p (modules : List Module) (fnPtr : List JValue → Int)
    (uid : Int) (gid : Int) (gids : jobject) (runtime_flags : Int) (rlimits : jobject)
    (mount_external : Int) (se_info : jobject) (se_name : jobject) (fdsToClose : jobject)
    (fdsToIgnore : jobject) (is_child_zygote : Bool) (instructionSet : jobject)
    (appDataDir : jobject) :
    Int × List Event :=
  let isTopApp : Bool := JNI_FALSE
  let pkgDataInfoList : jobject := none
  let whitelistedDataInfoList : jobject := none
  let bindMountAppDataDirs : Bool := JNI_FALSE
  let bindMountAppStorageDirs : Bool := JNI_FALSE
  let pre := nativeForkAndSpecialize_pre modules
    ⟨uid, gid, gids, runtime_flags, rlimits, mount_external, se_info, se_name, fdsToClose,
    fdsToIgnore, is_child_zygote, instructionSet, appDataDir, isTopApp, pkgDataInfoList,
    whitelistedDataInfoList, bindMountAppDataDirs, bindMountAppStorageDirs⟩
  let a := pre.1
  let call : List JValue :=
    [.jint a.uid, .jint a.gid, .jobject a.gids, .jint a.runtime_flags, .jobject a.rlimits,
    .jint a.mount_external, .jobject a.se_info, .jobject a.se_name, .jobject a.fdsToClose,
    .jobject a.fdsToIgnore, .jboolean a.is_child_zygote, .jobject a.instructionSet,
    .jobject a.appDataDir]
  let res := fnPtr call
  (res, pre.2 ++ [Event.fnPtr call] ++ nativeForkAndSpecialize_post modules a.uid res)

/-- The trampoline `nativeForkAndSpecialize_q_alternative`: the value returned and the
calls made. The result of the original is a function `fnPtr` of its arguments. -/
def nativeForkAndSpecialize_q_alternative (modules : List Module) (fnPtr : List JValue → Int)
    (uid : Int) (gid : Int) (gids : jobject) (runtime_flags : Int) (rlimits : jobject)
    (mount_external : Int) (se_info : jobject) (se_name : jobject) (fdsToClose : jobject)
    (fdsToIgnore : jobject) (is_child_zygote : Bool) (instructionSet : jobject)
    (appDataDir : jobject) (isTopApp : Bool) :
    Int × List Event :=
  let pkgDataInfoList : jobject := none
  let whitelistedDataInfoList : jobject := none
  let bindMountAppDataDirs : Bool := JNI_FALSE
  let bindMountAppStorageDirs : Bool := JNI_FALSE
  let pre := nativeForkAndSpecialize_pre modules
    ⟨uid, gid, gids, runtime_flags, rlimits, mount_external, se_info, se_name, fdsToClose,
    fdsToIgnore, is_child_zygote, instructionSet, appDataDir, isTopApp, pkgDataInfoList,
    whitelistedDataInfoList, bindMountAppDataDirs, bindMountAppStorageDirs⟩
  let a := pre.1
  let call : List JValue :=
    [.jint a.uid, .jint a.gid, .jobject a.gids, .jint a.runtime_flags, .jobject a.rlimits,
    .jint a.mount_external, .jobject a.se_info, .jobject a.se_name, .jobject a.fdsToClose,
    .jobject a.fdsToIgnore, .jboolean a.is_child_zygote, .jobject a.instructionSet,
    .jobject a.appDataDir, .jboolean a.isTopApp]
  let res := fnPtr call
  (res, pre.2 ++ [Event.fnPtr call] ++ nativeForkAndSpecialize_post modules a.uid res)

/-- The trampoline `nativeForkAndSpecialize_r`: the value returned and the
calls made. The result of the original is a function `fnPtr` of its arguments. -/
def nativeForkAndSpecialize_r (modules : List Module) (fnPtr : List JValue → Int)
    (uid : Int) (gid : Int) (gids : jobject) (runtime_flags : Int) (rlimits : jobject)
    (mount_external : Int) (se_info : jobject) (se_name : jobject) (fdsToClose : jobject)
    (fdsToIgnore : jobject) (is_child_zygote : Bool) (instructionSet : jobject)
    (appDataDir : jobject) (isTopApp : Bool) (pkgDataInfoList : jobject)
    (whitelistedDataInfoList : jobject) (bindMountAppDataDirs : Bool)
    (bindMountAppStorageDirs : Bool) :
    Int × List Event :=
  let pre := nativeForkAndSpecialize_pre modules
    ⟨uid, gid, gids, runtime_flags, rlimits, mount_external, se_info, se_name, fdsToClose,
    fdsToIgnore, is_child_zygote, instructionSet, appDataDir, isTopApp, pkgDataInfoList,
    whitelistedDataInfoList, bindMountAppDataDirs, bindMountAppStorageDirs⟩
  let a := pre.1
  let call : List JValue :=
    [.jint a.uid, .jint a.gid, .jobject a.gids, .jint a.runtime_flags, .jobject a.rlimits,
    .jint a.mount_external, .jobject a.se_info, .jobject a.se_name, .jobject a.fdsToClose,
    .jobject a.fdsToIgnore, .jboolean a.is_child_zygote, .jobject a.instructionSet,
    .jobject a.appDataDir, .jboolean a.isTopApp, .jobject a.pkgDataInfoList,
    .jobject a.whitelistedDataInfoList, .jboolean a.bindMountAppDataDirs,
    .jboolean a.bindMountAppStorageDirs]
  let res := fnPtr call
  (res, pre.2 ++ [Event.fnPtr call] ++ nativeForkAndSpecialize_post modules a.uid res)

/-- The trampoline `nativeForkAndSpecialize_r_dp3`: the value returned and the
calls made. The result of the original is a function `fnPtr` of its arguments. -/
def nativeForkAndSpecialize_r_dp3 (modules : List Module) (fnPtr : List JValue → Int)
    (uid : Int) (gid : Int) (gids : jobject) (runtime_flags : Int) (rlimits : jobject)
    (mount_external : Int) (se_info : jobject) (se_name : jobject) (fdsToClose : jobject)
    (fdsToIgnore : jobject) (is_child_zygote : Bool) (instructionSet : jobject)
    (appDataDir : jobject) (isTopApp : Bool) (pkgDataInfoList : jobject)
    (bindMountAppStorageDirs : Bool) :
    Int × List Event :=
  let whitelistedDataInfoList : jobject := none
  let bindMountAppDataDirs : Bool := JNI_FALSE
  let pre := nativeForkAndSpecialize_pre modules
    ⟨uid, gid, gids, runtime_flags, rlimits, mount_external, se_info, se_name, fdsToClose,
    fdsToIgnore, is_child_zygote, instructionSet, appDataDir, isTopApp, pkgDataInfoList,
    whitelistedDataInfoList, bindMountAppDataDirs, bindMountAppStorageDirs⟩
  let a := pre.1
  let call : List JValue :=
    [.jint a.uid, .jint a.gid, .jobject a.gids, .jint a.runtime_flags, .jobject a.rlimits,
    .jint a.mount_external, .jobject a.se_info, .jobject a.se_name, .jobject a.fdsToClose,
    .jobject a.fdsToIgnore, .jboolean a.is_child_zygote, .jobject a.instructionSet,
    .jobject a.appDataDir, .jboolean a.isTopApp, .jobject a.pkgDataInfoList,
    .jboolean a.bindMountAppStorageDirs]
  let res := fnPtr call
  (res, pre.2 ++ [Event.fnPtr call] ++ nativeForkAndSpecialize_post modules a.uid res)

/-- The trampoline `nativeForkAndSpecialize_r_dp2`: the value returned and the
calls made. The result of the original is a function `fnPtr` of its arguments. -/
def nativeForkAndSpecialize_r_dp2 (modules : List Module) (fnPtr : List JValue → Int)
    (uid : Int) (gid : Int) (gids : jobject) (runtime_flags : Int) (rlimits : jobject)
    (mount_external : Int) (se_info : jobject) (se_name : jobject) (fdsToClose : jobject)
    (fdsToIgnore : jobject) (is_child_zygote : Bool) (instructionSet : jobject)
    (appDataDir : jobject) (isTopApp : Bool) (pkgDataInfoList : jobject) :
    Int × List Event :=
  let whitelistedDataInfoList : jobject := none
  let bindMountAppDataDirs : Bool := JNI_FALSE
  let bindMountAppStorageDirs : Bool := JNI_FALSE
  let pre := nativeForkAndSpecialize_pre modules
    ⟨uid, gid, gids, runtime_flags, rlimits, mount_external, se_info, se_name, fdsToClose,
    fdsToIgnore, is_child_zygote, instructionSet, appDataDir, isTopApp, pkgDataInfoList,
    whitelistedDataInfoList, bindMountAppDataDirs, bindMountAppStorageDirs⟩
  let a := pre.1
  let call : List JValue :=
    [.jint a.uid, .jint a.gid, .jobject a.gids, .jint a.runtime_flags, .jobject a.rlimits,
    .jint a.mount_external, .jobject a.se_info, .jobject a.se_name, .jobject a.fdsToClose,
    .jobject a.fdsToIgnore, .jboolean a.is_child_zygote, .jobject a.instructionSet,
    .jobject a.appDataDir, .jboolean a.isTopApp, .jobject a.pkgDataInfoList]
  let res := fnPtr call
  (res, pre.2 ++ [Event.fnPtr call] ++ nativeForkAndSpecialize_post modules a.uid res)

/-- The trampoline `nativeForkAndSpecialize_samsung_p`: the value returned and the
calls made. The result of the original is a function `fnPtr` of its arguments. -/
def nativeForkAndSpecialize_samsung_p (modules : List Module) (fnPtr : List JValue → Int)
    (uid : Int) (gid : Int) (gids : jobject) (runtime_flags : Int) (rlimits : jobject)
    (mount_external : Int) (se_info : jobject) (category : Int) (accessInfo : Int)
    (se_name : jobject) (fdsToClose : jobject) (fdsToIgnore : jobject)
    (is_child_zygote : Bool) (instructionSet : jobject) (appDataDir : jobject) :
    Int × List Event :=
  let isTopApp : Bool := JNI_FALSE
  let pkgDataInfoList : jobject := none
  let whitelistedDataInfoList : jobject := none
  let bindMountAppDataDirs : Bool := JNI_FALSE
  let bindMountAppStorageDirs : Bool := JNI_FALSE
  let pre := nativeForkAndSpecialize_pre modules
    ⟨uid, gid, gids, runtime_flags, rlimits, mount_external, se_info, se_name, fdsToClose,
    fdsToIgnore, is_child_zygote, instructionSet, appDataDir, isTopApp, pkgDataInfoList,
    whitelistedDataInfoList, bindMountAppDataDirs, bindMountAppStorageDirs⟩
  let a := pre.1
  let call : List JValue :=
    [.jint a.uid, .jint a.gid, .jobject a.gids, .jint a.runtime_flags, .jobject a.rlimits,
    .jint a.mount_external, .jobject a.se_info, .jint category, .jint accessInfo,
    .jobject a.se_name, .jobject a.fdsToClose, .jobject a.fdsToIgnore,
    .jboolean a.is_child_zygote, .jobject a.instructionSet, .jobject a.appDataDir]
  let res := fnPtr call
  (res, pre.2 ++ [Event.fnPtr call] ++ nativeForkAndSpecialize_post modules a.uid res)

/-- The trampoline `nativeForkAndSpecialize_samsung_o`: the value returned and the
calls made. The result of the original is a function `fnPtr` of its arguments. -/
def nativeForkAndSpecialize_samsung_o (modules : List Module) (fnPtr : List JValue → Int)
    (uid : Int) (gid : Int) (gids : jobject) (debug_flags : Int) (rlimits : jobject)
    (mount_external : Int) (se_info : jobject) (category : Int) (accessInfo : Int)
    (se_name : jobject) (fdsToClose : jobject) (fdsToIgnore : jobject)
    (instructionSet : jobject) (appDataDir : jobject) :
    Int × List Event :=
  let is_child_zygote : Bool := JNI_FALSE
  let isTopApp : Bool := JNI_FALSE
  let pkgDataInfoList : jobject := none
  let whitelistedDataInfoList : jobject := none
  let bindMountAppDataDirs : Bool := JNI_FALSE
  let bindMountAppStorageDirs : Bool := JNI_FALSE
  let pre := nativeForkAndSpecialize_pre modules
    ⟨uid, gid, gids, debug_flags, rlimits, mount_external, se_info, se_name, fdsToClose,
    fdsToIgnore, is_child_zygote, instructionSet, appDataDir, isTopApp, pkgDataInfoList,
    whitelistedDataInfoList, bindMountAppDataDirs, bindMountAppStorageDirs⟩
  let a := pre.1
  let call : List JValue :=
    [.jint a.uid, .jint a.gid, .jobject a.gids, .jint a.runtime_flags, .jobject a.rlimits,
    .jint a.mount_external, .jobject a.se_info, .jint category, .jint accessInfo,
    .jobject a.se_name, .jobject a.fdsToClose, .jobject a.fdsToIgnore,
    .jobject a.instructionSet, .jobject a.appDataDir]
  let res := fnPtr call
  (res, pre.2 ++ [Event.fnPtr call] ++ nativeForkAndSpecialize_post modules a.uid res)

/-- The trampoline `nativeForkAndSpecialize_samsung_n`: the value returned and the
calls made. The result of the original is a function `fnPtr` of its arguments. -/
def nativeForkAndSpecialize_samsung_n (modules : List Module) (fnPtr : List JValue → Int)
    (uid : Int) (gid : Int) (gids : jobject) (debug_flags : Int) (rlimits : jobject)
    (mount_external : Int) (se_info : jobject) (category : Int) (accessInfo : Int)
    (se_name : jobject) (fdsToClose : jobject) (instructionSet : jobject)
    (appDataDir : jobject) (a1 : Int) :
    Int × List Event :=
  let fdsToIgnore : jobject := none
  let is_child_zygote : Bool := JNI_FALSE
  let isTopApp : Bool := JNI_FALSE
  let pkgDataInfoList : jobject := none
  let whitelistedDataInfoList : jobject := none
  let bindMountAppDataDirs : Bool := JNI_FALSE
  let bindMountAppStorageDirs : Bool := JNI_FALSE
  let pre := nativeForkAndSpecialize_pre modules
    ⟨uid, gid, gids, debug_flags, rlimits, mount_external, se_info, se_name, fdsToClose,
    fdsToIgnore, is_child_zygote, instructionSet, appDataDir, isTopApp, pkgDataInfoList,
    whitelistedDataInfoList, bindMountAppDataDirs, bindMountAppStorageDirs⟩
  let a := pre.1
  let call : List JValue :=
    [.jint a.uid, .jint a.gid, .jobject a.gids, .jint a.runtime_flags, .jobject a.rlimits,
    .jint a.mount_external, .jobject a.se_info, .jint category, .jint accessInfo,
    .jobject a.se_name, .jobject a.fdsToClose, .jobject a.instructionSet,
    .jobject a.appDataDir, .jint a1]
  let res := fnPtr call
  (res, pre.2 ++ [Event.fnPtr call] ++ nativeForkAndSpecialize_post modules a.uid res)

/-- The trampoline `nativeForkAndSpecialize_samsung_m`: the value returned and the
calls made. The result of the original is a function `fnPtr` of its arguments. -/
def nativeForkAndSpecialize_samsung_m (modules : List Module) (fnPtr : List JValue → Int)
    (uid : Int) (gid : Int) (gids : jobject) (debug_flags : Int) (rlimits : jobject)
    (mount_external : Int) (se_info : jobject) (category : Int) (accessInfo : Int)
    (se_name : jobject) (fdsToClose : jobject) (instructionSet : jobject)
    (appDataDir : jobject) :
    Int × List Event :=
  let fdsToIgnore : jobject := none
  let is_child_zygote : Bool := JNI_FALSE
  let isTopApp : Bool := JNI_FALSE
  let pkgDataInfoList : jobject := none
  let whitelistedDataInfoList : jobject := none
  let bindMountAppDataDirs : Bool := JNI_FALSE
  let bindMountAppStorageDirs : Bool := JNI_FALSE
  let pre := nativeForkAndSpecialize_pre modules
    ⟨uid, gid, gids, debug_flags, rlimits, mount_external, se_info, se_name, fdsToClose,
    fdsToIgnore, is_child_zygote, instructionSet, appDataDir, isTopApp, pkgDataInfoList,
    whitelistedDataInfoList, bindMountAppDataDirs, bindMountAppStorageDirs⟩
  let a := pre.1
  let call : List JValue :=
    [.jint a.uid, .jint a.gid, .jobject a.gids, .jint a.runtime_flags, .jobject a.rlimits,
    .jint a.mount_external, .jobject a.se_info, .jint category, .jint accessInfo,
    .jobject a.se_name, .jobject a.fdsToClose, .jobject a.instructionSet,
    .jobject a.appDataDir]
  let res := fnPtr call
  (res, pre.2 ++ [Event.fnPtr call] ++ nativeForkAndSpecialize_post modules a.uid res)

/-- The trampoline `nativeSpecializeAppProcess_q` (it returns `void`, and so does the
original): the calls made. -/
def nativeSpecializeAppProcess_q (modules : List Module)
    (uid : Int) (gid : Int) (gids : jobject) (runtimeFlags : Int) (rlimits : jobject)
    (mountExternal : Int) (seInfo : jobject) (niceName : jobject) (startChildZygote : Bool)
    (instructionSet : jobject) (appDataDir : jobject) :
    List Event :=
  let isTopApp : Bool := JNI_FALSE
  let pkgDataInfoList : jobject := none
  let whitelistedDataInfoList : jobject := none
  let bindMountAppDataDirs : Bool := JNI_FALSE
  let bindMountAppStorageDirs : Bool := JNI_FALSE
  let pre := nativeSpecializeAppProcess_pre modules
    ⟨uid, gid, gids, runtimeFlags, rlimits, mountExternal, seInfo, niceName, startChildZygote,
    instructionSet, appDataDir, isTopApp, pkgDataInfoList, whitelistedDataInfoList,
    bindMountAppDataDirs, bindMountAppStorageDirs⟩
  let a := pre.1
  let call : List JValue :=
    [.jint a.uid, .jint a.gid, .jobject a.gids, .jint a.runtimeFlags, .jobject a.rlimits,
    .jint a.mountExternal, .jobject a.seInfo, .jobject a.niceName,
    .jboolean a.startChildZygote, .jobject a.instructionSet, .jobject a.appDataDir]
  pre.2 ++ [Event.fnPtr call] ++ nativeSpecializeAppProcess_post modules

/-- The trampoline `nativeSpecializeAppProcess_q_alternative` (it returns `void`, and so does the
original): the calls made. -/
def nativeSpecializeAppProcess_q_alternative (modules : List Module)
    (uid : Int) (gid : Int) (gids : jobject) (runtimeFlags : Int) (rlimits : jobject)
    (mountExternal : Int) (seInfo : jobject) (niceName : jobject) (startChildZygote : Bool)
    (instructionSet : jobject) (appDataDir : jobject) (isTopApp : Bool) :
    List Event :=
  let pkgDataInfoList : jobject := none
  let whitelistedDataInfoList : jobject := none
  let bindMountAppDataDirs : Bool := JNI_FALSE
  let bindMountAppStorageDirs : Bool := JNI_FALSE
  let pre := nativeSpecializeAppProcess_pre modules
    ⟨uid, gid, gids, runtimeFlags, rlimits, mountExternal, seInfo, niceName, startChildZygote,
    instructionSet, appDataDir, isTopApp, pkgDataInfoList, whitelistedDataInfoList,
    bindMountAppDataDirs, bindMountAppStorageDirs⟩
  let a := pre.1
  let call : List JValue :=
    [.jint a.uid, .jint a.gid, .jobject a.gids, .jint a.runtimeFlags, .jobject a.rlimits,
    .jint a.mountExternal, .jobject a.seInfo, .jobject a.niceName,
    .jboolean a.startChildZygote, .jobject a.instructionSet, .jobject a.appDataDir,
    .jboolean a.isTopApp]
  pre.2 ++ [Event.fnPtr call] ++ nativeSpecializeAppProcess_post modules

/-- The trampoline `nativeSpecializeAppProcess_r` (it returns `void`, and so does the
original): the calls made. -/
def nativeSpecializeAppProcess_r (modules : List Module)
    (uid : Int) (gid : Int) (gids : jobject) (runtimeFlags : Int) (rlimits : jobject)
    (mountExternal : Int) (seInfo : jobject) (niceName : jobject) (startChildZygote : Bool)
    (instructionSet : jobject) (appDataDir : jobject) (isTopApp : Bool)
    (pkgDataInfoList : jobject) (whitelistedDataInfoList : jobject)
    (bindMountAppDataDirs : Bool) (bindMountAppStorageDirs : Bool) :
    List Event :=
  let pre := nativeSpecializeAppProcess_pre modules
    ⟨uid, gid, gids, runtimeFlags, rlimits, mountExternal, seInfo, niceName, startChildZygote,
    instructionSet, appDataDir, isTopApp, pkgDataInfoList, whitelistedDataInfoList,
    bindMountAppDataDirs, bindMountAppStorageDirs⟩
  let a := pre.1
  let call : List JValue :=
    [.jint a.uid, .jint a.gid, .jobject a.gids, .jint a.runtimeFlags, .jobject a.rlimits,
    .jint a.mountExternal, .jobject a.seInfo, .jobject a.niceName,
    .jboolean a.startChildZygote, .jobject a.instructionSet, .jobject a.appDataDir,
    .jboolean a.isTopApp, .jobject a.pkgDataInfoList, .jobject a.whitelistedDataInfoList,
    .jboolean a.bindMountAppDataDirs, .jboolean a.bindMountAppStorageDirs]
  pre.2 ++ [Event.fnPtr call] ++ nativeSpecializeAppProcess_post modules

/-- The trampoline `nativeSpecializeAppProcess_r_dp3` (it returns `void`, and so does the
original): the calls made. -/
def nativeSpecializeAppProcess_r_dp3 (modules : List Module)
    (uid : Int) (gid : Int) (gids : jobject) (runtimeFlags : Int) (rlimits : jobject)
    (mountExternal : Int) (seInfo : jobject) (niceName : jobject) (startChildZygote : Bool)
    (instructionSet : jobject) (appDataDir : jobject) (isTopApp : Bool)
    (pkgDataInfoList : jobject) (bindMountAppStorageDirs : Bool) :
    List Event :=
  let whitelistedDataInfoList : jobject := none
  let bindMountAppDataDirs : Bool := JNI_FALSE
  let pre := nativeSpecializeAppProcess_pre modules
    ⟨uid, gid, gids, runtimeFlags, rlimits, mountExternal, seInfo, niceName, startChildZygote,
    instructionSet, appDataDir, isTopApp, pkgDataInfoList, whitelistedDataInfoList,
    bindMountAppDataDirs, bindMountAppStorageDirs⟩
  let a := pre.1
  let call : List JValue :=
    [.jint a.uid, .jint a.gid, .jobject a.gids, .jint a.runtimeFlags, .jobject a.rlimits,
    .jint a.mountExternal, .jobject a.seInfo, .jobject a.niceName,
    .jboolean a.startChildZygote, .jobject a.instructionSet, .jobject a.appDataDir,
    .jboolean a.isTopApp, .jobject a.pkgDataInfoList, .jboolean a.bindMountAppStorageDirs]
  pre.2 ++ [Event.fnPtr call] ++ nativeSpecializeAppProcess_post modules

/-- The trampoline `nativeSpecializeAppProcess_r_dp2` (it returns `void`, and so does the
original): the calls made. -/
def nativeSpecializeAppProcess_r_dp2 (modules : List Module)
    (uid : Int) (gid : Int) (gids : jobject) (runtimeFlags : Int) (rlimits : jobject)
    (mountExternal : Int) (seInfo : jobject) (niceName : jobject) (startChildZygote : Bool)
    (instructionSet : jobject) (appDataDir : jobject) (isTopApp : Bool)
    (pkgDataInfoList : jobject) :
    List Event :=
  let whitelistedDataInfoList : jobject := none
  let bindMountAppDataDirs : Bool := JNI_FALSE
  let bindMountAppStorageDirs : Bool := JNI_FALSE
  let pre := nativeSpecializeAppProcess_pre modules
    ⟨uid, gid, gids, runtimeFlags, rlimits, mountExternal, seInfo, niceName, startChildZygote,
    instructionSet, appDataDir, isTopApp, pkgDataInfoList, whitelistedDataInfoList,
    bindMountAppDataDirs, bindMountAppStorageDirs⟩
  let a := pre.1
  let call : List JValue :=
    [.jint a.uid, .jint a.gid, .jobject a.gids, .jint a.runtimeFlags, .jobject a.rlimits,
    .jint a.mountExternal, .jobject a.seInfo, .jobject a.niceName,
    .jboolean a.startChildZygote, .jobject a.instructionSet, .jobject a.appDataDir,
    .jboolean a.isTopApp, .jobject a.pkgDataInfoList]
  pre.2 ++ [Event.fnPtr call] ++ nativeSpecializeAppProcess_post modules

/-- The trampoline `nativeSpecializeAppProcess_samsung_q` (it returns `void`, and so does the
original): the calls made. -/
def nativeSpecializeAppProcess_samsung_q (modules : List Module)
    (uid : Int) (gid : Int) (gids : jobject) (runtimeFlags : Int) (rlimits : jobject)
    (mountExternal : Int) (seInfo : jobject) (space : Int) (accessInfo : Int)
    (niceName : jobject) (startChildZygote : Bool) (instructionSet : jobject)
    (appDataDir : jobject) :
    List Event :=
  let isTopApp : Bool := JNI_FALSE
  let pkgDataInfoList : jobject := none
  let whitelistedDataInfoList : jobject := none
  let bindMountAppDataDirs : Bool := JNI_FALSE
  let bindMountAppStorageDirs : Bool := JNI_FALSE
  let pre := nativeSpecializeAppProcess_pre modules
    ⟨uid, gid, gids, runtimeFlags, rlimits, mountExternal, seInfo, niceName, startChildZygote,
    instructionSet, appDataDir, isTopApp, pkgDataInfoList, whitelistedDataInfoList,
    bindMountAppDataDirs, bindMountAppStorageDirs⟩
  let a := pre.1
  let call : List JValue :=
    [.jint a.uid, .jint a.gid, .jobject a.gids, .jint a.runtimeFlags, .jobject a.rlimits,
    .jint a.mountExternal, .jobject a.seInfo, .jint space, .jint accessInfo,
    .jobject a.niceName, .jboolean a.startChildZygote, .jobject a.instructionSet,
    .jobject a.appDataDir]
  pre.2 ++ [Event.fnPtr call] ++ nativeSpecializeAppProcess_post modules

/-- The trampoline `nativeForkSystemServer`: the value returned and the calls made. -/
def nativeForkSystemServer (modules : List Module) (fnPtr : List JValue → Int)
    (uid : Int) (gid : Int) (gids : jobject) (runtimeFlags : Int) (rlimits : jobject)
    (permittedCapabilities : Int) (effectiveCapabilities : Int) :
    Int × List Event :=
  let pre := nativeForkSystemServer_pre modules
    ⟨uid, gid, gids, runtimeFlags, rlimits, permittedCapabilities, effectiveCapabilities⟩
  let a := pre.1
  let call : List JValue :=
    [.jint a.uid, .jint a.gid, .jobject a.gids, .jint a.debug_flags, .jobject a.rlimits,
    .jlong a.permittedCapabilities, .jlong a.effectiveCapabilities]
  let res := fnPtr call
  (res, pre.2 ++ [Event.fnPtr call] ++ nativeForkSystemServer_post modules res)

/-- The trampoline `nativeForkSystemServer_samsung_q`: the value returned and the
calls made. -/
def nativeForkSystemServer_samsung_q (modules : List Module) (fnPtr : List JValue → Int)
    (uid : Int) (gid : Int) (gids : jobject) (runtimeFlags : Int) (space : Int)
    (accessInfo : Int) (rlimits : jobject) (permittedCapabilities : Int)
    (effectiveCapabilities : Int) :
    Int × List Event :=
  let pre := nativeForkSystemServer_pre modules
    ⟨uid, gid, gids, runtimeFlags, rlimits, permittedCapabilities, effectiveCapabilities⟩
  let a := pre.1
  let call : List JValue :=
    [.jint a.uid, .jint a.gid, .jobject a.gids, .jint a.debug_flags, .jint space,
    .jint accessInfo, .jobject a.rlimits, .jlong a.permittedCapabilities,
    .jlong a.effectiveCapabilities]
  let res := fnPtr call
  (res, pre.2 ++ [Event.fnPtr call] ++ nativeForkSystemServer_post modules res)

/-! ## The `SystemProperties.set` guard -/

/-- A directive of a `scanf` format: an ordinary character, or a conversion
`%[^...]` whose scanset is every character not listed. -/
inductive Directive where
  | ordinary (c : Char)
  | notIn (listed : List Char)
  deriving DecidableEq, Repr

/-- The value `EOF` of `<stdio.h>`. -/
def EOF : Int := -1

/-- The C library function `sscanf` on directives of the two kinds above, for a
call with one `char` buffer of `size` bytes as the target of every conversion.
`assigned` counts the conversions stored so far. An ordinary character must equal
the next input character; `%[^...]` takes the longest non-empty run of characters
outside the list and stores it with a terminating NUL. Scanning stops at the
first directive that fails, and the call returns the number of conversions
stored, or `EOF` when the input ended before any was. A run that does not fit
the buffer is written past its end: the behaviour is undefined, `none`. -/
def sscanf.scan (size : Nat) : List Directive → List Char → Nat → Option Int
  | [], _, assigned => some assigned
  | Directive.ordinary c :: rest, input, assigned =>
    match input with
    | [] => some (if assigned = 0 then EOF else assigned)
    | x :: xs => if x = c then sscanf.scan size rest xs assigned else some assigned
  | Directive.notIn listed :: rest, input, assigned =>
    match input with
    | [] => some (if assigned = 0 then EOF else assigned)
    | _ :: _ =>
      let run := input.takeWhile (fun x => !listed.contains x)
      if run.isEmpty then some assigned
      else if run.length + 1 > size then none
      else sscanf.scan size rest (input.drop run.length) (assigned + 1)

/-- The call `sscanf(str, format, buf)` with `buf` of `size` bytes. -/
def sscanf (str : List Char) (format : List Directive) (size : Nat) : Option Int :=
  sscanf.scan size format str 0

/-- The format string `"sys.user.%[^.].ce_available"`. -/
def ce_available_format : List Directive :=
  "sys.user.".toList.map Directive.ordinary
    ++ [Directive.notIn ['.']]
    ++ ".ce_available".toList.map Directive.ordinary

/-- The part of the JNI environment the guard reads and writes: the pending
exception (`ExceptionOccurred`), `none` when there is none. -/
structure JNIEnv where
  exception : Option Nat
  deriving DecidableEq, Repr

/-- The hook `SystemProperties_set`. `key` is the C string that
`GetStringUTFChars(keyJ)` returns and `user` is `char user[16]`. The real setter
`fnPtr` is a function from the environment before the call to the environment
after it. The result is the environment when the hook returns, with the calls
made; `none` when `sscanf` overruns `user`. -/
def SystemProperties_set (fnPtr : JNIEnv → jobject → jobject → JNIEnv) (env : JNIEnv)
    (keyJ : jobject) (key : List Char) (valJ : jobject) : Option (JNIEnv × List Event) :=
  match sscanf key ce_available_format 16 with
  | none => none
  | some n =>
    let no_throw : Bool := decide (n = 1)
    let env1 := fnPtr env keyJ valJ
    let call := [Event.fnPtr [.jobject keyJ, .jobject valJ]]
    let exception := env1.exception
    if exception.isSome && no_throw then
      some ({ env1 with exception := none },
        call ++ [Event.LOGW "prevented data destroy", Event.ExceptionDescribe,
          Event.ExceptionClear])
    else some (env1, call)

/-! ## Observations on a trace -/

/-- The six hook phases. -/
inductive Phase where
  | forkAndSpecializePre
  | forkAndSpecializePost
  | specializeAppProcessPre
  | specializeAppProcessPost
  | forkSystemServerPre
  | forkSystemServerPost
  deriving DecidableEq, Repr

/-- The phase and the plugin of a hook call; `none` for any other call. -/
def Event.hook : Event → Option (Phase × Nat)
  | Event.forkAndSpecializePre i _ => some (Phase.forkAndSpecializePre, i)
  | Event.forkAndSpecializePost i _ => some (Phase.forkAndSpecializePost, i)
  | Event.specializeAppProcessPre i _ => some (Phase.specializeAppProcessPre, i)
  | Event.specializeAppProcessPost i => some (Phase.specializeAppProcessPost, i)
  | Event.forkSystemServerPre i _ => some (Phase.forkSystemServerPre, i)
  | Event.forkSystemServerPost i _ => some (Phase.forkSystemServerPost, i)
  | _ => none

/-- How many times the hook of `phase` of plugin `i` is called in a trace. -/
def calls (phase : Phase) (i : Nat) (trace : List Event) : Nat :=
  trace.countP (fun e => decide (e.hook = some (phase, i)))

/-- Whether a call is an evaluation of a uid filter, the default one or a plugin
one. -/
def Event.isFilter : Event → Bool
  | Event.shouldSkipUid _ _ => true
  | Event.moduleShouldSkipUid _ _ => true
  | _ => false


/-- The fork-and-specialize pre-hook calls of a trace, in order: the plugin and
the fields it was shown. -/
def preCalls (trace : List Event) : List (Nat × ForkAndSpecializeArgs) :=
  trace.filterMap fun e =>
    match e with
    | Event.forkAndSpecializePre i args => some (i, args)
    | _ => none

/-- The specialize-app-process pre-hook calls of a trace, in order: the plugin and
the fields it was shown. -/
def specializePreCalls (trace : List Event) : List (Nat × SpecializeAppProcessArgs) :=
  trace.filterMap fun e =>
    match e with
    | Event.specializeAppProcessPre i args => some (i, args)
    | _ => none

/-- The calls of the original native function in a trace, in order: their
argument lists. -/
def origCalls (trace : List Event) : List (List JValue) :=
  trace.filterMap fun e =>
    match e with
    | Event.fnPtr args => some args
    | _ => none

/-- Whether a list of pre-hook calls threads the fields from `cur` to `final`: the
first plugin called is shown `cur`, every later one is shown what the pre-hook of
the one called before it left, and `final` is what the last one left (`cur` when
there is no call). -/
def threaded (modules : List Module) :
    ForkAndSpecializeArgs → List (Nat × ForkAndSpecializeArgs) → ForkAndSpecializeArgs → Bool
  | cur, [], final => decide (final = cur)
  | cur, (i, seen) :: rest, final =>
    decide (seen = cur) &&
      match modules[i]? with
      | some m => threaded modules (m.forkAndSpecializePre seen) rest final
      | none => false

/-- Whether a call is one that a dispatcher loop makes: a filter, a hook or a
`LOGD` line. -/
def Event.fromLoop : Event → Bool
  | Event.restore_replaced_func => false
  | Event.LOGW _ => false
  | Event.fnPtr _ => false
  | Event.ExceptionDescribe => false
  | Event.ExceptionClear => false
  | _ => true

/-- Whether a call is a `LOGD` line. -/
def Event.isLOGD : Event → Bool
  | Event.LOGD _ => true
  | _ => false

/-! ## The trampolines as one family

To state a property of every trampoline at once, the variants are enumerated and
called through one function, each with the arguments its signature has. -/

/-- The canonical fields that some signatures lack. -/
inductive OptionalField where
  | fdsToIgnore
  | is_child_zygote
  | isTopApp
  | pkgDataInfoList
  | whitelistedDataInfoList
  | bindMountAppDataDirs
  | bindMountAppStorageDirs
  deriving DecidableEq, Repr

/-- The fork-and-specialize trampolines. -/
inductive ForkVariant where
  | marshmallow
  | oreo
  | p
  | q_alternative
  | r
  | r_dp3
  | r_dp2
  | samsung_p
  | samsung_o
  | samsung_n
  | samsung_m
  deriving DecidableEq, Repr

/-- The optional fields in the parameter list of
`nativeForkAndSpecialize_<variant>`. -/
def ForkVariant.carried : ForkVariant → List OptionalField
  | .marshmallow => []
  | .oreo => [.fdsToIgnore]
  | .p => [.fdsToIgnore, .is_child_zygote]
  | .q_alternative => [.fdsToIgnore, .is_child_zygote, .isTopApp]
  | .r => [.fdsToIgnore, .is_child_zygote, .isTopApp, .pkgDataInfoList,
      .whitelistedDataInfoList, .bindMountAppDataDirs, .bindMountAppStorageDirs]
  | .r_dp3 => [.fdsToIgnore, .is_child_zygote, .isTopApp, .pkgDataInfoList,
      .bindMountAppStorageDirs]
  | .r_dp2 => [.fdsToIgnore, .is_child_zygote, .isTopApp, .pkgDataInfoList]
  | .samsung_p => [.fdsToIgnore, .is_child_zygote]
  | .samsung_o => [.fdsToIgnore]
  | .samsung_n => []
  | .samsung_m => []

/-- Whether the signature of the variant has the field. -/
def ForkVariant.carries (v : ForkVariant) (f : OptionalField) : Bool :=
  v.carried.contains f

/-- The arguments of a call of a fork-and-specialize trampoline: the canonical
fields (a variant reads those its signature has) and the Samsung-only integers. -/
structure ForkCall where
  args : ForkAndSpecializeArgs
  category : Int
  accessInfo : Int
  a1 : Int
  deriving DecidableEq, Repr

/-- The call of the trampoline of a variant with the arguments of `c`. -/
def runFork (modules : List Module) (fnPtr : List JValue → Int) (c : ForkCall) :
    ForkVariant → Int × List Event
  | .marshmallow => nativeForkAndSpecialize_marshmallow modules fnPtr
      c.args.uid c.args.gid c.args.gids c.args.runtime_flags c.args.rlimits
      c.args.mount_external c.args.se_info c.args.se_name c.args.fdsToClose
      c.args.instructionSet c.args.appDataDir
  | .oreo => nativeForkAndSpecialize_oreo modules fnPtr
      c.args.uid c.args.gid c.args.gids c.args.runtime_flags c.args.rlimits
      c.args.mount_external c.args.se_info c.args.se_name c.args.fdsToClose
      c.args.fdsToIgnore c.args.instructionSet c.args.appDataDir
  | .p => nativeForkAndSpecialize_p modules fnPtr
      c.args.uid c.args.gid c.args.gids c.args.runtime_flags c.args.rlimits
      c.args.mount_external c.args.se_info c.args.se_name c.args.fdsToClose
      c.args.fdsToIgnore c.args.is_child_zygote c.args.instructionSet c.args.appDataDir
  | .q_alternative => nativeForkAndSpecialize_q_alternative modules fnPtr
      c.args.uid c.args.gid c.args.gids c.args.runtime_flags c.args.rlimits
      c.args.mount_external c.args.se_info c.args.se_name c.args.fdsToClose
      c.args.fdsToIgnore c.args.is_child_zygote c.args.instructionSet c.args.appDataDir
      c.args.isTopApp
  | .r => nativeForkAndSpecialize_r modules fnPtr
      c.args.uid c.args.gid c.args.gids c.args.runtime_flags c.args.rlimits
      c.args.mount_external c.args.se_info c.args.se_name c.args.fdsToClose
      c.args.fdsToIgnore c.args.is_child_zygote c.args.instructionSet c.args.appDataDir
      c.args.isTopApp c.args.pkgDataInfoList c.args.whitelistedDataInfoList
      c.args.bindMountAppDataDirs c.args.bindMountAppStorageDirs
  | .r_dp3 => nativeForkAndSpecialize_r_dp3 modules fnPtr
      c.args.uid c.args.gid c.args.gids c.args.runtime_flags c.args.rlimits
      c.args.mount_external c.args.se_info c.args.se_name c.args.fdsToClose
      c.args.fdsToIgnore c.args.is_child_zygote c.args.instructionSet c.args.appDataDir
      c.args.isTopApp c.args.pkgDataInfoList c.args.bindMountAppStorageDirs
  | .r_dp2 => nativeForkAndSpecialize_r_dp2 modules fnPtr
      c.args.uid c.args.gid c.args.gids c.args.runtime_flags c.args.rlimits
      c.args.mount_external c.args.se_info c.args.se_name c.args.fdsToClose
      c.args.fdsToIgnore c.args.is_child_zygote c.args.instructionSet c.args.appDataDir
      c.args.isTopApp c.args.pkgDataInfoList
  | .samsung_p => nativeForkAndSpecialize_samsung_p modules fnPtr
      c.args.uid c.args.gid c.args.gids c.args.runtime_flags c.args.rlimits
      c.args.mount_external c.args.se_info c.category c.accessInfo c.args.se_name
      c.args.fdsToClose c.args.fdsToIgnore c.args.is_child_zygote c.args.instructionSet
      c.args.appDataDir
  | .samsung_o => nativeForkAndSpecialize_samsung_o modules fnPtr
      c.args.uid c.args.gid c.args.gids c.args.runtime_flags c.args.rlimits
      c.args.mount_external c.args.se_info c.category c.accessInfo c.args.se_name
      c.args.fdsToClose c.args.fdsToIgnore c.args.instructionSet c.args.appDataDir
  | .samsung_n => nativeForkAndSpecialize_samsung_n modules fnPtr
      c.args.uid c.args.gid c.args.gids c.args.runtime_flags c.args.rlimits
      c.args.mount_external c.args.se_info c.category c.accessInfo c.args.se_name
      c.args.fdsToClose c.args.instructionSet c.args.appDataDir c.a1
  | .samsung_m => nativeForkAndSpecialize_samsung_m modules fnPtr
      c.args.uid c.args.gid c.args.gids c.args.runtime_flags c.args.rlimits
      c.args.mount_external c.args.se_info c.category c.accessInfo c.args.se_name
      c.args.fdsToClose c.args.instructionSet c.args.appDataDir

/-- What a fork-and-specialize variant is to show to the pre-hook for a call: the
argument of the caller in every field its signature has, and the default in the
others (`nullptr` for a reference, `JNI_FALSE` for a flag). -/
def ForkVariant.presented (v : ForkVariant) (c : ForkAndSpecializeArgs) :
    ForkAndSpecializeArgs :=
  { c with
    fdsToIgnore :=
      if v.carries .fdsToIgnore then c.fdsToIgnore else none
    is_child_zygote :=
      if v.carries .is_child_zygote then c.is_child_zygote else JNI_FALSE
    isTopApp :=
      if v.carries .isTopApp then c.isTopApp else JNI_FALSE
    pkgDataInfoList :=
      if v.carries .pkgDataInfoList then c.pkgDataInfoList else none
    whitelistedDataInfoList :=
      if v.carries .whitelistedDataInfoList then c.whitelistedDataInfoList else none
    bindMountAppDataDirs :=
      if v.carries .bindMountAppDataDirs then c.bindMountAppDataDirs else JNI_FALSE
    bindMountAppStorageDirs :=
      if v.carries .bindMountAppStorageDirs then c.bindMountAppStorageDirs else JNI_FALSE }

/-- The specialize-app-process trampolines. -/
inductive SpecializeVariant where
  | q
  | q_alternative
  | r
  | r_dp3
  | r_dp2
  | samsung_q
  deriving DecidableEq, Repr

/-- The optional fields in the parameter list of
`nativeSpecializeAppProcess_<variant>`. The family has no `fdsToIgnore`, and
`startChildZygote` is in every signature. -/
def SpecializeVariant.carried : SpecializeVariant → List OptionalField
  | .q => []
  | .q_alternative => [.isTopApp]
  | .r => [.isTopApp, .pkgDataInfoList, .whitelistedDataInfoList, .bindMountAppDataDirs,
      .bindMountAppStorageDirs]
  | .r_dp3 => [.isTopApp, .pkgDataInfoList, .bindMountAppStorageDirs]
  | .r_dp2 => [.isTopApp, .pkgDataInfoList]
  | .samsung_q => []

/-- Whether the signature of the variant has the field. -/
def SpecializeVariant.carries (v : SpecializeVariant) (f : OptionalField) : Bool :=
  v.carried.contains f

/-- The arguments of a call of a specialize-app-process trampoline. -/
structure SpecializeCall where
  args : SpecializeAppProcessArgs
  space : Int
  accessInfo : Int
  deriving DecidableEq, Repr

/-- The call of the trampoline of a variant with the arguments of `c`. -/
def runSpecialize (modules : List Module) (c : SpecializeCall) :
    SpecializeVariant → List Event
  | .q => nativeSpecializeAppProcess_q modules
      c.args.uid c.args.gid c.args.gids c.args.runtimeFlags c.args.rlimits
      c.args.mountExternal c.args.seInfo c.args.niceName c.args.startChildZygote
      c.args.instructionSet c.args.appDataDir
  | .q_alternative => nativeSpecializeAppProcess_q_alternative modules
      c.args.uid c.args.gid c.args.gids c.args.runtimeFlags c.args.rlimits
      c.args.mountExternal c.args.seInfo c.args.niceName c.args.startChildZygote
      c.args.instructionSet c.args.appDataDir c.args.isTopApp
  | .r => nativeSpecializeAppProcess_r modules
      c.args.uid c.args.gid c.args.gids c.args.runtimeFlags c.args.rlimits
      c.args.mountExternal c.args.seInfo c.args.niceName c.args.startChildZygote
      c.args.instructionSet c.args.appDataDir c.args.isTopApp c.args.pkgDataInfoList
      c.args.whitelistedDataInfoList c.args.bindMountAppDataDirs
      c.args.bindMountAppStorageDirs
  | .r_dp3 => nativeSpecializeAppProcess_r_dp3 modules
      c.args.uid c.args.gid c.args.gids c.args.runtimeFlags c.args.rlimits
      c.args.mountExternal c.args.seInfo c.args.niceName c.args.startChildZygote
      c.args.instructionSet c.args.appDataDir c.args.isTopApp c.args.pkgDataInfoList
      c.args.bindMountAppStorageDirs
  | .r_dp2 => nativeSpecializeAppProcess_r_dp2 modules
      c.args.uid c.args.gid c.args.gids c.args.runtimeFlags c.args.rlimits
      c.args.mountExternal c.args.seInfo c.args.niceName c.args.startChildZygote
      c.args.instructionSet c.args.appDataDir c.args.isTopApp c.args.pkgDataInfoList
  | .samsung_q => nativeSpecializeAppProcess_samsung_q modules
      c.args.uid c.args.gid c.args.gids c.args.runtimeFlags c.args.rlimits
      c.args.mountExternal c.args.seInfo c.space c.accessInfo c.args.niceName
      c.args.startChildZygote c.args.instructionSet c.args.appDataDir

/-- What a specialize-app-process variant is to show to the pre-hook for a call. -/
def SpecializeVariant.presented (v : SpecializeVariant) (c : SpecializeAppProcessArgs) :
    SpecializeAppProcessArgs :=
  { c with
    isTopApp :=
      if v.carries .isTopApp then c.isTopApp else JNI_FALSE
    pkgDataInfoList :=
      if v.carries .pkgDataInfoList then c.pkgDataInfoList else none
    whitelistedDataInfoList :=
      if v.carries .whitelistedDataInfoList then c.whitelistedDataInfoList else none
    bindMountAppDataDirs :=
      if v.carries .bindMountAppDataDirs then c.bindMountAppDataDirs else JNI_FALSE
    bindMountAppStorageDirs :=
      if v.carries .bindMountAppStorageDirs then c.bindMountAppStorageDirs else JNI_FALSE }

/-- The fork-system-server trampolines: `nativeForkSystemServer` and
`nativeForkSystemServer_samsung_q`. -/
inductive ServerVariant where
  | stock
  | samsung_q
  deriving DecidableEq, Repr

/-- The arguments of a call of a fork-system-server trampoline. -/
structure ServerCall where
  args : ForkSystemServerArgs
  space : Int
  accessInfo : Int
  deriving DecidableEq, Repr

/-- The call of the trampoline of a variant with the arguments of `c`. -/
def runServer (modules : List Module) (fnPtr : List JValue → Int) (c : ServerCall) :
    ServerVariant → Int × List Event
  | .stock => nativeForkSystemServer modules fnPtr
      c.args.uid c.args.gid c.args.gids c.args.debug_flags c.args.rlimits
      c.args.permittedCapabilities c.args.effectiveCapabilities
  | .samsung_q => nativeForkSystemServer_samsung_q modules fnPtr
      c.args.uid c.args.gid c.args.gids c.args.debug_flags c.space c.accessInfo
      c.args.rlimits c.args.permittedCapabilities c.args.effectiveCapabilities

/-- The eighteen canonical fields as an argument list, in the order of the
signature that has them all (`nativeForkAndSpecialize_r`). -/
def ForkAndSpecializeArgs.toJValues (a : ForkAndSpecializeArgs) : List JValue :=
  [.jint a.uid, .jint a.gid, .jobject a.gids, .jint a.runtime_flags, .jobject a.rlimits,
    .jint a.mount_external, .jobject a.se_info, .jobject a.se_name, .jobject a.fdsToClose,
    .jobject a.fdsToIgnore, .jboolean a.is_child_zygote, .jobject a.instructionSet,
    .jobject a.appDataDir, .jboolean a.isTopApp, .jobject a.pkgDataInfoList,
    .jobject a.whitelistedDataInfoList, .jboolean a.bindMountAppDataDirs,
    .jboolean a.bindMountAppStorageDirs]

/-- The argument list of the native signature of a fork-and-specialize variant, in
the order of its parameters, filled from canonical fields `a` and from the
Samsung-only integers of the call `c`. -/
def ForkVariant.nativeArgs (v : ForkVariant) (a : ForkAndSpecializeArgs) (c : ForkCall) :
    List JValue :=
  match v with
  | .marshmallow =>
    [.jint a.uid, .jint a.gid, .jobject a.gids, .jint a.runtime_flags, .jobject a.rlimits,
      .jint a.mount_external, .jobject a.se_info, .jobject a.se_name, .jobject a.fdsToClose,
      .jobject a.instructionSet, .jobject a.appDataDir]
  | .oreo =>
    [.jint a.uid, .jint a.gid, .jobject a.gids, .jint a.runtime_flags, .jobject a.rlimits,
      .jint a.mount_external, .jobject a.se_info, .jobject a.se_name, .jobject a.fdsToClose,
      .jobject a.fdsToIgnore, .jobject a.instructionSet, .jobject a.appDataDir]
  | .p =>
    [.jint a.uid, .jint a.gid, .jobject a.gids, .jint a.runtime_flags, .jobject a.rlimits,
      .jint a.mount_external, .jobject a.se_info, .jobject a.se_name, .jobject a.fdsToClose,
      .jobject a.fdsToIgnore, .jboolean a.is_child_zygote, .jobject a.instructionSet,
      .jobject a.appDataDir]
  | .q_alternative =>
    [.jint a.uid, .jint a.gid, .jobject a.gids, .jint a.runtime_flags, .jobject a.rlimits,
      .jint a.mount_external, .jobject a.se_info, .jobject a.se_name, .jobject a.fdsToClose,
      .jobject a.fdsToIgnore, .jboolean a.is_child_zygote, .jobject a.instructionSet,
      .jobject a.appDataDir, .jboolean a.isTopApp]
  | .r =>
    [.jint a.uid, .jint a.gid, .jobject a.gids, .jint a.runtime_flags, .jobject a.rlimits,
      .jint a.mount_external, .jobject a.se_info, .jobject a.se_name, .jobject a.fdsToClose,
      .jobject a.fdsToIgnore, .jboolean a.is_child_zygote, .jobject a.instructionSet,
      .jobject a.appDataDir, .jboolean a.isTopApp, .jobject a.pkgDataInfoList,
      .jobject a.whitelistedDataInfoList, .jboolean a.bindMountAppDataDirs,
      .jboolean a.bindMountAppStorageDirs]
  | .r_dp3 =>
    [.jint a.uid, .jint a.gid, .jobject a.gids, .jint a.runtime_flags, .jobject a.rlimits,
      .jint a.mount_external, .jobject a.se_info, .jobject a.se_name, .jobject a.fdsToClose,
      .jobject a.fdsToIgnore, .jboolean a.is_child_zygote, .jobject a.instructionSet,
      .jobject a.appDataDir, .jboolean a.isTopApp, .jobject a.pkgDataInfoList,
      .jboolean a.bindMountAppStorageDirs]
  | .r_dp2 =>
    [.jint a.uid, .jint a.gid, .jobject a.gids, .jint a.runtime_flags, .jobject a.rlimits,
      .jint a.mount_external, .jobject a.se_info, .jobject a.se_name, .jobject a.fdsToClose,
      .jobject a.fdsToIgnore, .jboolean a.is_child_zygote, .jobject a.instructionSet,
      .jobject a.appDataDir, .jboolean a.isTopApp, .jobject a.pkgDataInfoList]
  | .samsung_p =>
    [.jint a.uid, .jint a.gid, .jobject a.gids, .jint a.runtime_flags, .jobject a.rlimits,
      .jint a.mount_external, .jobject a.se_info, .jint c.category, .jint c.accessInfo,
      .jobject a.se_name, .jobject a.fdsToClose, .jobject a.fdsToIgnore,
      .jboolean a.is_child_zygote, .jobject a.instructionSet, .jobject a.appDataDir]
  | .samsung_o =>
    [.jint a.uid, .jint a.gid, .jobject a.gids, .jint a.runtime_flags, .jobject a.rlimits,
      .jint a.mount_external, .jobject a.se_info, .jint c.category, .jint c.accessInfo,
      .jobject a.se_name, .jobject a.fdsToClose, .jobject a.fdsToIgnore,
      .jobject a.instructionSet, .jobject a.appDataDir]
  | .samsung_n =>
    [.jint a.uid, .jint a.gid, .jobject a.gids, .jint a.runtime_flags, .jobject a.rlimits,
      .jint a.mount_external, .jobject a.se_info, .jint c.category, .jint c.accessInfo,
      .jobject a.se_name, .jobject a.fdsToClose, .jobject a.instructionSet,
      .jobject a.appDataDir, .jint c.a1]
  | .samsung_m =>
    [.jint a.uid, .jint a.gid, .jobject a.gids, .jint a.runtime_flags, .jobject a.rlimits,
      .jint a.mount_external, .jobject a.se_info, .jint c.category, .jint c.accessInfo,
      .jobject a.se_name, .jobject a.fdsToClose, .jobject a.instructionSet,
      .jobject a.appDataDir]

/-- The UID Filter Policy for one plugin: the verdict of its own filter if it has
one, else that of the default filter; `true` means skip. -/
def Module.skipsUid (m : Module) (uid : Int) : Bool :=
  if m.hasShouldSkipUid then m.shouldSkipUid uid else decide (Riru.shouldSkipUid uid ≠ 0)

/-! ## Transparent runs

What a trampoline that adds nothing of its own does, given the argument list with
which it was called: these three definitions follow the words of the
specification, not the code. -/

/-- A transparent fork-and-specialize run: one call of the original on the
arguments, whose result is returned, and then the restoration callback if and only
if that result is 0. -/
def transparentFork (fnPtr : List JValue → Int) (args : List JValue) : Int × List Event :=
  (fnPtr args,
    Event.fnPtr args :: (if fnPtr args = 0 then [Event.restore_replaced_func] else []))

/-- A transparent specialize-app-process run: one call of the original on the
arguments and then the restoration callback. -/
def transparentSpecialize (args : List JValue) : List Event :=
  [Event.fnPtr args, Event.restore_replaced_func]

/-- A transparent fork-system-server run: one call of the original on the
arguments, whose result is returned, and nothing else. -/
def transparentServer (fnPtr : List JValue → Int) (args : List JValue) : Int × List Event :=
  (fnPtr args, [Event.fnPtr args])

/-! ## Sample inputs -/

/-- A plugin with every hook capability and no uid filter of its own; its hooks
leave the parameters as they are. -/
def sampleFull : Module where
  name := "full"
  hasShouldSkipUid := false
  shouldSkipUid := fun _ => false
  hasForkAndSpecializePre := true
  forkAndSpecializePre := fun a => a
  hasForkAndSpecializePost := true
  hasSpecializeAppProcessPre := true
  specializeAppProcessPre := fun a => a
  hasSpecializeAppProcessPost := true
  hasForkSystemServerPre := true
  forkSystemServerPre := fun a => a
  hasForkSystemServerPost := true

/-- A plugin with no capability at all. -/
def sampleNone : Module :=
  { sampleFull with
    name := "none"
    hasForkAndSpecializePre := false
    hasForkAndSpecializePost := false
    hasSpecializeAppProcessPre := false
    hasSpecializeAppProcessPost := false
    hasForkSystemServerPre := false
    hasForkSystemServerPost := false }

/-- A plugin with every hook capability and a uid filter of its own, which skips
uid 10005 and no other. -/
def sampleFiltered : Module :=
  { sampleFull with
    name := "filtered"
    hasShouldSkipUid := true
    shouldSkipUid := fun uid => decide (uid = 10005) }

/-- A plugin under the default filter whose fork-and-specialize pre-hook rewrites
`gid` to 4242 and sets `is_child_zygote`. -/
def sampleRewriter : Module :=
  { sampleFull with
    name := "rewriter"
    forkAndSpecializePre := fun a => { a with gid := 4242, is_child_zygote := true } }

/-- A plugin under the default filter whose fork-and-specialize pre-hook rewrites
`uid` to 1000. -/
def sampleUidRewriter : Module :=
  { sampleFull with
    name := "uid-rewriter"
    forkAndSpecializePre := fun a => { a with uid := 1000 } }

/-- A plugin whose specialize-app-process pre-hook rewrites `gid` to 4242 and sets
`isTopApp`. -/
def sampleSpecializeRewriter : Module :=
  { sampleFull with
    name := "specialize-rewriter"
    specializeAppProcessPre := fun a => { a with gid := 4242, isTopApp := true } }

/-- Fork-and-specialize parameters with the given uid, everything else zero, null
or false. -/
def sampleForkArgs (uid : Int) : ForkAndSpecializeArgs :=
  ⟨uid, 0, none, 0, none, 0, none, none, none, none, false, none, none, false, none, none,
    false, false⟩

/-- Specialize-app-process parameters with the given uid. -/
def sampleSpecializeArgs (uid : Int) : SpecializeAppProcessArgs :=
  ⟨uid, 0, none, 0, none, 0, none, none, false, none, none, false, none, none, false, false⟩

/-- Fork-system-server parameters with the given uid. -/
def sampleServerArgs (uid : Int) : ForkSystemServerArgs :=
  ⟨uid, 0, none, 0, none, 0, 0⟩

/-- A call of a fork-and-specialize trampoline for uid 10005 in which every
optional field holds a value that is not its default, and the Samsung-only
integers are 7, 8 and 9. -/
def sampleFullForkCall : ForkCall :=
  ⟨{ sampleForkArgs 10005 with
      fdsToIgnore := some 3, is_child_zygote := true, isTopApp := true,
      pkgDataInfoList := some 4, whitelistedDataInfoList := some 5,
      bindMountAppDataDirs := true, bindMountAppStorageDirs := true },
    7, 8, 9⟩

/-- A call of a specialize-app-process trampoline for uid 10005 in which every
optional field holds a value that is not its default. -/
def sampleFullSpecializeCall : SpecializeCall :=
  ⟨{ sampleSpecializeArgs 10005 with
      isTopApp := true, pkgDataInfoList := some 4, whitelistedDataInfoList := some 5,
      bindMountAppDataDirs := true, bindMountAppStorageDirs := true },
    7, 8⟩

/-- A real property setter that always leaves exception `7` pending. -/
def sampleThrowingSetter : JNIEnv → jobject → jobject → JNIEnv :=
  fun _ _ _ => ⟨some 7⟩

/-! ## Properties -/

/-- The C++ remainder of a negative dividend is not positive. -/
theorem tmod_nonpos_of_neg (a : Int) (ha : a < 0) : Int.tmod a 100000 ≤ 0 := by
  cases a with
  | ofNat n => exact absurd ha (by simp)
  | negSucc n =>
    show -(Int.ofNat ((n + 1) % 100000)) ≤ 0
    have : (0 : Int) ≤ Int.ofNat ((n + 1) % 100000) := Int.ofNat_nonneg _
    omega

/-- The default filter in terms of the mathematical residue. -/
theorem shouldSkipUid_eq_zero_iff (uid : Int) :
    shouldSkipUid uid = 0 ↔ 0 ≤ uid ∧ 10000 ≤ uid % 100000 ∧ uid % 100000 ≤ 19999 := by
  unfold shouldSkipUid
  by_cases h : 0 ≤ uid
  · have e : Int.tmod uid 100000 = uid % 100000 := Int.tmod_eq_emod h (by decide)
    simp only [e, ge_iff_le]
    split <;> simp_all
  · have := tmod_nonpos_of_neg uid (by omega)
    simp only [ge_iff_le]
    split
    · omega
    · simp [h]

/-- The loop over a concatenation is the loop over the first part followed by the
loop over the second, started where the first ended. -/
theorem forEachModule_append {σ : Type} (body : Nat → Module → σ → σ × List Event)
    (xs ys : List Module) (i : Nat) (s : σ) :
    forEachModule body i (xs ++ ys) s =
      ((forEachModule body (i + xs.length) ys (forEachModule body i xs s).1).1,
        (forEachModule body i xs s).2
          ++ (forEachModule body (i + xs.length) ys (forEachModule body i xs s).1).2) := by
  induction xs generalizing i s with
  | nil => simp [forEachModule]
  | cons x xs ih =>
    have h : i + 1 + xs.length = i + (xs.length + 1) := by omega
    rw [List.cons_append, forEachModule, forEachModule, ih]
    simp only [List.length_cons, List.append_assoc, h]

/-- A call made by the loop is made by the pass for some plugin `k`, which starts in
the state left by the plugins before it. -/
theorem mem_forEachModule {σ : Type} (body : Nat → Module → σ → σ × List Event)
    (ms : List Module) (i : Nat) (s : σ) (e : Event) :
    e ∈ (forEachModule body i ms s).2 ↔
      ∃ k m, ms[k]? = some m ∧
        e ∈ (body (i + k) m (forEachModule body i (ms.take k) s).1).2 := by
  induction ms generalizing i s with
  | nil => simp [forEachModule]
  | cons x xs ih =>
    simp only [forEachModule, List.mem_append, ih]
    constructor
    · rintro (h | ⟨k, m, hk, h⟩)
      · exact ⟨0, x, by simp, by simpa [forEachModule] using h⟩
      · refine ⟨k + 1, m, by simpa using hk, ?_⟩
        have : i + (k + 1) = i + 1 + k := by omega
        simpa [forEachModule, this] using h
    · rintro ⟨k, m, hk, h⟩
      cases k with
      | zero =>
        left
        simp at hk
        subst hk
        simpa [forEachModule] using h
      | succ k =>
        right
        refine ⟨k, m, by simpa using hk, ?_⟩
        have : i + (k + 1) = i + 1 + k := by omega
        simpa [forEachModule, this] using h

/-- A hook call made by a pass of the fork-and-specialize pre loop is the call of
that phase for the plugin of the pass, and the plugin has the capability. -/
theorem nativeForkAndSpecialize_pre_body_hook (k : Nat) (m : Module)
    (a : ForkAndSpecializeArgs) (e : Event) (ph : Phase) (j : Nat)
    (he : e ∈ (nativeForkAndSpecialize_pre.body k m a).2) (hh : e.hook = some (ph, j)) :
    ph = Phase.forkAndSpecializePre ∧ j = k ∧ m.hasForkAndSpecializePre = true := by
  unfold nativeForkAndSpecialize_pre.body at he
  cases h1 : m.hasForkAndSpecializePre <;> cases h2 : m.hasShouldSkipUid <;>
    cases h3 : m.shouldSkipUid a.uid <;> by_cases h4 : shouldSkipUid a.uid = 0 <;>
    simp [h1, h2, h3, h4] at he <;>
    (try rcases he with he | he) <;> (try subst he) <;> simp_all [Event.hook]

/-- The same for the fork-and-specialize post loop. -/
theorem nativeForkAndSpecialize_post_body_hook (uid res : Int) (k : Nat) (m : Module)
    (s : Unit) (e : Event) (ph : Phase) (j : Nat)
    (he : e ∈ (nativeForkAndSpecialize_post.body uid res k m s).2)
    (hh : e.hook = some (ph, j)) :
    ph = Phase.forkAndSpecializePost ∧ j = k ∧ m.hasForkAndSpecializePost = true := by
  unfold nativeForkAndSpecialize_post.body at he
  cases h1 : m.hasForkAndSpecializePost <;> cases h2 : m.hasShouldSkipUid <;>
    cases h3 : m.shouldSkipUid uid <;> by_cases h4 : shouldSkipUid uid = 0 <;>
    by_cases h5 : res = 0 <;>
    simp [h1, h2, h3, h4, h5] at he <;>
    (try rcases he with he | he | he) <;> (try rcases he with he | he) <;>
    simp_all [Event.hook]

/-- The same for the specialize-app-process pre loop. -/
theorem nativeSpecializeAppProcess_pre_body_hook (k : Nat) (m : Module)
    (a : SpecializeAppProcessArgs) (e : Event) (ph : Phase) (j : Nat)
    (he : e ∈ (nativeSpecializeAppProcess_pre.body k m a).2) (hh : e.hook = some (ph, j)) :
    ph = Phase.specializeAppProcessPre ∧ j = k ∧ m.hasSpecializeAppProcessPre = true := by
  unfold nativeSpecializeAppProcess_pre.body at he
  cases h1 : m.hasSpecializeAppProcessPre <;> simp [h1] at he
  subst he
  simp_all [Event.hook]

/-- The same for the specialize-app-process post loop. -/
theorem nativeSpecializeAppProcess_post_body_hook (k : Nat) (m : Module)
    (s : Unit) (e : Event) (ph : Phase) (j : Nat)
    (he : e ∈ (nativeSpecializeAppProcess_post.body k m s).2) (hh : e.hook = some (ph, j)) :
    ph = Phase.specializeAppProcessPost ∧ j = k ∧ m.hasSpecializeAppProcessPost = true := by
  unfold nativeSpecializeAppProcess_post.body at he
  cases h1 : m.hasSpecializeAppProcessPost <;> simp [h1] at he
  rcases he with he | he <;> subst he <;> simp_all [Event.hook]

/-- The same for the fork-system-server pre loop. -/
theorem nativeForkSystemServer_pre_body_hook (k : Nat) (m : Module)
    (a : ForkSystemServerArgs) (e : Event) (ph : Phase) (j : Nat)
    (he : e ∈ (nativeForkSystemServer_pre.body k m a).2) (hh : e.hook = some (ph, j)) :
    ph = Phase.forkSystemServerPre ∧ j = k ∧ m.hasForkSystemServerPre = true := by
  unfold nativeForkSystemServer_pre.body at he
  cases h1 : m.hasForkSystemServerPre <;> simp [h1] at he
  subst he
  simp_all [Event.hook]

/-- The same for the fork-system-server post loop. -/
theorem nativeForkSystemServer_post_body_hook (res : Int) (k : Nat) (m : Module)
    (s : Unit) (e : Event) (ph : Phase) (j : Nat)
    (he : e ∈ (nativeForkSystemServer_post.body res k m s).2) (hh : e.hook = some (ph, j)) :
    ph = Phase.forkSystemServerPost ∧ j = k ∧ m.hasForkSystemServerPost = true := by
  unfold nativeForkSystemServer_post.body at he
  cases h1 : m.hasForkSystemServerPost <;> by_cases h5 : res = 0 <;>
    simp [h1, h5] at he <;> (try rcases he with he | he) <;> (try subst he) <;>
    simp_all [Event.hook]

/-- When every pass of a loop calls no hook but that of phase `ph0` for its own
plugin, and only if the plugin has the flag `has`, a plugin without the flag is
called zero times by the whole loop, for whatever phase. -/
theorem forEachModule_calls_eq_zero {σ : Type} (body : Nat → Module → σ → σ × List Event)
    (ph0 : Phase) (has : Module → Bool)
    (hbody : ∀ k m s e ph j, e ∈ (body k m s).2 → e.hook = some (ph, j) →
      ph = ph0 ∧ j = k ∧ has m = true)
    (ms : List Module) (s : σ) (i : Nat) (m : Module) (hm : ms[i]? = some m)
    (hno : has m = false) (ph : Phase) :
    calls ph i (forEachModule body 0 ms s).2 = 0 := by
  unfold calls
  rw [List.countP_eq_zero]
  intro e he
  simp only [decide_eq_true_eq]
  intro hh
  obtain ⟨k, m1, hk, hmem⟩ := (mem_forEachModule body ms 0 s e).1 he
  obtain ⟨-, hj, hhas⟩ := hbody _ _ _ _ _ _ hmem hh
  have hik : i = k := by omega
  subst hik
  rw [hm] at hk
  cases hk
  rw [hno] at hhas
  cases hhas

/-- C3. A plugin whose capability flag for a phase is absent has its hook for that
phase called zero times by the dispatcher of the phase: for each of the six
phases, every plugin list, every position `i` in it and every input of the
dispatcher. -/
theorem absent_capability_not_invoked (modules : List Module) (i : Nat) (m : Module)
    (hm : modules[i]? = some m) :
    (m.hasForkAndSpecializePre = false → ∀ a,
      calls Phase.forkAndSpecializePre i (nativeForkAndSpecialize_pre modules a).2 = 0) ∧
    (m.hasForkAndSpecializePost = false → ∀ uid res,
      calls Phase.forkAndSpecializePost i (nativeForkAndSpecialize_post modules uid res) = 0) ∧
    (m.hasSpecializeAppProcessPre = false → ∀ a,
      calls Phase.specializeAppProcessPre i (nativeSpecializeAppProcess_pre modules a).2 = 0) ∧
    (m.hasSpecializeAppProcessPost = false →
      calls Phase.specializeAppProcessPost i (nativeSpecializeAppProcess_post modules) = 0) ∧
    (m.hasForkSystemServerPre = false → ∀ a,
      calls Phase.forkSystemServerPre i (nativeForkSystemServer_pre modules a).2 = 0) ∧
    (m.hasForkSystemServerPost = false → ∀ res,
      calls Phase.forkSystemServerPost i (nativeForkSystemServer_post modules res) = 0) := by
  refine ⟨?_, ?_, ?_, ?_, ?_, ?_⟩
  · intro h a
    exact forEachModule_calls_eq_zero _ _ _ nativeForkAndSpecialize_pre_body_hook
      modules a i m hm h _
  · intro h uid res
    have := forEachModule_calls_eq_zero _ _ _ (nativeForkAndSpecialize_post_body_hook uid res)
      modules () i m hm h Phase.forkAndSpecializePost
    unfold nativeForkAndSpecialize_post
    unfold calls at this ⊢
    rw [List.countP_append, this]
    split <;> simp [Event.hook]
  · intro h a
    exact forEachModule_calls_eq_zero _ _ _ nativeSpecializeAppProcess_pre_body_hook
      modules a i m hm h _
  · intro h
    have := forEachModule_calls_eq_zero _ _ _ nativeSpecializeAppProcess_post_body_hook
      modules () i m hm h Phase.specializeAppProcessPost
    unfold nativeSpecializeAppProcess_post
    unfold calls at this ⊢
    rw [List.countP_append, this]
    simp [Event.hook]
  · intro h a
    exact forEachModule_calls_eq_zero _ _ _ nativeForkSystemServer_pre_body_hook
      modules a i m hm h _
  · intro h res
    exact forEachModule_calls_eq_zero _ _ _ (nativeForkSystemServer_post_body_hook res)
      modules () i m hm h _

/-- Witness of C3: in the list `[sampleFull, sampleNone]` the second plugin has no
capability, and none of the six dispatchers calls it. -/
theorem absent_capability_not_invoked_witness :
    calls Phase.forkAndSpecializePre 1
      (nativeForkAndSpecialize_pre [sampleFull, sampleNone] (sampleForkArgs 10005)).2 = 0 ∧
    calls Phase.forkAndSpecializePost 1
      (nativeForkAndSpecialize_post [sampleFull, sampleNone] 10005 0) = 0 ∧
    calls Phase.specializeAppProcessPre 1
      (nativeSpecializeAppProcess_pre [sampleFull, sampleNone]
        (sampleSpecializeArgs 10005)).2 = 0 ∧
    calls Phase.specializeAppProcessPost 1
      (nativeSpecializeAppProcess_post [sampleFull, sampleNone]) = 0 ∧
    calls Phase.forkSystemServerPre 1
      (nativeForkSystemServer_pre [sampleFull, sampleNone] (sampleServerArgs 1000)).2 = 0 ∧
    calls Phase.forkSystemServerPost 1
      (nativeForkSystemServer_post [sampleFull, sampleNone] 0) = 0 :=
  have h := absent_capability_not_invoked [sampleFull, sampleNone] 1 sampleNone rfl
  ⟨h.1 rfl _, h.2.1 rfl _ _, h.2.2.1 rfl _, h.2.2.2.1 rfl, h.2.2.2.2.1 rfl _,
    h.2.2.2.2.2 rfl _⟩

/-- C1, counterexample. With `mod` the mathematical residue, the claim fails at
uid `-89995`: the residue is `10005`, inside the range, and the filter returns 1. -/
theorem shouldSkipUid_residue_counterexample :
    ¬ (shouldSkipUid (-89995) = 0 ↔
        (10000 ≤ (-89995 : Int) % 100000 ∧ (-89995 : Int) % 100000 ≤ 19999)) := by
  decide

/-- C1, as amended. For every integer uid the default filter returns 0 (regular
app) exactly when uid is not negative and `10000 ≤ uid mod 100000 ≤ 19999`, and
returns 1 in every other case; uid 10005 is a regular app, uid 99999 and uid 1000
are not. -/
theorem shouldSkipUid_regular_app (uid : Int) :
    (shouldSkipUid uid = 0 ↔
      (0 ≤ uid ∧ 10000 ≤ uid % 100000 ∧ uid % 100000 ≤ 19999)) ∧
    (shouldSkipUid uid = 1 ↔
      ¬ (0 ≤ uid ∧ 10000 ≤ uid % 100000 ∧ uid % 100000 ≤ 19999)) ∧
    shouldSkipUid 10005 = 0 ∧ shouldSkipUid 99999 = 1 ∧ shouldSkipUid 1000 = 1 := by
  refine ⟨shouldSkipUid_eq_zero_iff uid, ?_, by decide, by decide, by decide⟩
  rw [← shouldSkipUid_eq_zero_iff]
  unfold shouldSkipUid
  simp only []
  split <;> simp

/-- C2, the code at the failing inputs. For the keys `sys.user.0.foo` and
`sys.user.0`, neither of the shape `sys.user.<token>.ce_available`, `sscanf`
returns 1, and whatever the real setter does no exception is pending when
`SystemProperties_set` returns; with a setter that leaves an exception pending,
the guard calls `ExceptionClear`. -/
theorem SystemProperties_set_clears_other_keys
    (fnPtr : JNIEnv → jobject → jobject → JNIEnv) (env : JNIEnv) (keyJ valJ : jobject) :
    sscanf "sys.user.0.foo".toList ce_available_format 16 = some 1 ∧
    sscanf "sys.user.0".toList ce_available_format 16 = some 1 ∧
    (∃ r, SystemProperties_set fnPtr env keyJ "sys.user.0.foo".toList valJ = some r ∧
      r.1.exception = none) ∧
    (∃ r, SystemProperties_set fnPtr env keyJ "sys.user.0".toList valJ = some r ∧
      r.1.exception = none) ∧
    SystemProperties_set sampleThrowingSetter ⟨none⟩ keyJ "sys.user.0.foo".toList valJ =
      some (⟨none⟩, [Event.fnPtr [.jobject keyJ, .jobject valJ],
        Event.LOGW "prevented data destroy", Event.ExceptionDescribe,
        Event.ExceptionClear]) := by
  have h1 : sscanf "sys.user.0.foo".toList ce_available_format 16 = some 1 := by decide
  have h2 : sscanf "sys.user.0".toList ce_available_format 16 = some 1 := by decide
  refine ⟨h1, h2, ?_, ?_, ?_⟩
  · unfold SystemProperties_set
    rw [h1]
    cases h : (fnPtr env keyJ valJ).exception <;> simp [h]
  · unfold SystemProperties_set
    rw [h2]
    cases h : (fnPtr env keyJ valJ).exception <;> simp [h]
  · unfold SystemProperties_set
    rw [h1]
    simp [sampleThrowingSetter]

/-- The hook calls of a loop started at position `i0` are for plugins at positions
from `i0` on, within the list. -/
theorem forEachModule_hook_range {σ : Type} (body : Nat → Module → σ → σ × List Event)
    (hidx : ∀ k m s e ph j, e ∈ (body k m s).2 → e.hook = some (ph, j) → j = k)
    (ms : List Module) (i0 : Nat) (s : σ) (e : Event) (ph : Phase) (j : Nat)
    (he : e ∈ (forEachModule body i0 ms s).2) (hh : e.hook = some (ph, j)) :
    i0 ≤ j ∧ j < i0 + ms.length := by
  obtain ⟨k, m, hk, hmem⟩ := (mem_forEachModule body ms i0 s e).1 he
  have hj := hidx _ _ _ _ _ _ hmem hh
  have hlt : k < ms.length := by
    rcases List.getElem?_eq_some.1 hk with ⟨h, -⟩
    exact h
  omega

/-- The append rule for `calls`. -/
theorem calls_append (ph : Phase) (i : Nat) (xs ys : List Event) :
    calls ph i (xs ++ ys) = calls ph i xs + calls ph i ys := by
  simp [calls, List.countP_append]

/-- No call is counted in a trace without a hook call for the plugin. -/
theorem calls_eq_zero_of_forall (ph : Phase) (i : Nat) (xs : List Event)
    (h : ∀ e ∈ xs, e.hook ≠ some (ph, i)) : calls ph i xs = 0 := by
  unfold calls
  rw [List.countP_eq_zero]
  intro e he
  simpa using h e he

/-- The calls of the hook of plugin `i` made by a loop are those made by the pass
for plugin `i`, which starts in the state left by the plugins before it. -/
theorem forEachModule_calls_at {σ : Type} (body : Nat → Module → σ → σ × List Event)
    (hidx : ∀ k m s e ph j, e ∈ (body k m s).2 → e.hook = some (ph, j) → j = k)
    (ms : List Module) (s : σ) (i : Nat) (m : Module) (hm : ms[i]? = some m) (ph : Phase) :
    calls ph i (forEachModule body 0 ms s).2 =
      calls ph i (body i m (forEachModule body 0 (ms.take i) s).1).2 := by
  have hlt : i < ms.length := by
    rcases List.getElem?_eq_some.1 hm with ⟨h, -⟩
    exact h
  have hget : ms[i] = m := by
    rcases List.getElem?_eq_some.1 hm with ⟨_, h⟩
    exact h
  have hsplit : ms = ms.take i ++ m :: ms.drop (i + 1) := by
    rw [← hget, ← List.drop_eq_getElem_cons hlt, List.take_append_drop]
  have hlen : (ms.take i).length = i := by simp; omega
  conv_lhs => rw [hsplit]
  rw [forEachModule_append, hlen]
  simp only [forEachModule, Nat.zero_add, calls_append]
  have h1 : calls ph i (forEachModule body 0 (ms.take i) s).2 = 0 := by
    apply calls_eq_zero_of_forall
    intro e he hh
    have := forEachModule_hook_range body hidx _ _ _ e ph i he hh
    omega
  have h3 : calls ph i (forEachModule body (i + 1) (ms.drop (i + 1))
      (body i m (forEachModule body 0 (ms.take i) s).1).1).2 = 0 := by
    apply calls_eq_zero_of_forall
    intro e he hh
    have := forEachModule_hook_range body hidx _ _ _ e ph i he hh
    omega
  rw [h1, h3]
  omega

/-- The number of hook calls of one pass of the fork-and-specialize pre loop: one
when the plugin has the capability and the filter that applies to it (its own if
it has one, else the default) does not skip the current uid, else none. -/
theorem nativeForkAndSpecialize_pre_body_calls (k : Nat) (m : Module)
    (a : ForkAndSpecializeArgs) :
    calls Phase.forkAndSpecializePre k (nativeForkAndSpecialize_pre.body k m a).2 =
      if m.hasForkAndSpecializePre = true ∧
          (if m.hasShouldSkipUid = true then m.shouldSkipUid a.uid = false
            else shouldSkipUid a.uid = 0) then 1 else 0 := by
  unfold nativeForkAndSpecialize_pre.body calls
  cases h1 : m.hasForkAndSpecializePre <;> cases h2 : m.hasShouldSkipUid <;>
    cases h3 : m.shouldSkipUid a.uid <;> by_cases h4 : shouldSkipUid a.uid = 0 <;>
    simp [h1, h2, h3, h4, Event.hook]

/-- The same for the fork-and-specialize post loop. -/
theorem nativeForkAndSpecialize_post_body_calls (uid res : Int) (k : Nat) (m : Module)
    (s : Unit) :
    calls Phase.forkAndSpecializePost k (nativeForkAndSpecialize_post.body uid res k m s).2 =
      if m.hasForkAndSpecializePost = true ∧
          (if m.hasShouldSkipUid = true then m.shouldSkipUid uid = false
            else shouldSkipUid uid = 0) then 1 else 0 := by
  unfold nativeForkAndSpecialize_post.body calls
  cases h1 : m.hasForkAndSpecializePost <;> cases h2 : m.hasShouldSkipUid <;>
    cases h3 : m.shouldSkipUid uid <;> by_cases h4 : shouldSkipUid uid = 0 <;>
    by_cases h5 : res = 0 <;>
    simp [h1, h2, h3, h4, h5, Event.hook, List.countP_cons]

/-- A pass of the fork-and-specialize pre loop evaluates the default filter only
for its own plugin, and only if the plugin has no filter of its own. -/
theorem nativeForkAndSpecialize_pre_body_default (k : Nat) (m : Module)
    (a : ForkAndSpecializeArgs) (j : Nat) (x : Int)
    (he : Event.shouldSkipUid j x ∈ (nativeForkAndSpecialize_pre.body k m a).2) :
    j = k ∧ m.hasShouldSkipUid = false := by
  unfold nativeForkAndSpecialize_pre.body at he
  cases h1 : m.hasForkAndSpecializePre <;> cases h2 : m.hasShouldSkipUid <;>
    cases h3 : m.shouldSkipUid a.uid <;> by_cases h4 : shouldSkipUid a.uid = 0 <;>
    simp [h1, h2, h3, h4] at he <;> simp [he]

/-- The same for the fork-and-specialize post loop. -/
theorem nativeForkAndSpecialize_post_body_default (uid res : Int) (k : Nat) (m : Module)
    (s : Unit) (j : Nat) (x : Int)
    (he : Event.shouldSkipUid j x ∈ (nativeForkAndSpecialize_post.body uid res k m s).2) :
    j = k ∧ m.hasShouldSkipUid = false := by
  unfold nativeForkAndSpecialize_post.body at he
  cases h1 : m.hasForkAndSpecializePost <;> cases h2 : m.hasShouldSkipUid <;>
    cases h3 : m.shouldSkipUid uid <;> by_cases h4 : shouldSkipUid uid = 0 <;>
    by_cases h5 : res = 0 <;>
    simp [h1, h2, h3, h4, h5] at he <;> simp [he]

/-- When no pre-hook of the list rewrites the uid, the uid is the same after the
pre loop as before it. -/
theorem nativeForkAndSpecialize_pre_uid (ms : List Module)
    (hms : ∀ p ∈ ms, ∀ x, (p.forkAndSpecializePre x).uid = x.uid)
    (i0 : Nat) (a : ForkAndSpecializeArgs) :
    (forEachModule nativeForkAndSpecialize_pre.body i0 ms a).1.uid = a.uid := by
  induction ms generalizing i0 a with
  | nil => simp [forEachModule]
  | cons p ps ih =>
    simp only [forEachModule]
    rw [ih (fun q hq => hms q (List.mem_cons_of_mem _ hq))]
    have hp := hms p (List.mem_cons_self _ _) a
    unfold nativeForkAndSpecialize_pre.body
    cases h1 : p.hasForkAndSpecializePre <;> cases h2 : p.hasShouldSkipUid <;>
      cases h3 : p.shouldSkipUid a.uid <;> by_cases h4 : shouldSkipUid a.uid = 0 <;>
      simp [h1, h2, h3, h4, hp]

/-- The calls of a hook made by `nativeForkAndSpecialize_post` are those of its
loop: `restore_replaced_func` is no hook. -/
theorem nativeForkAndSpecialize_post_calls (modules : List Module) (uid res : Int)
    (ph : Phase) (i : Nat) :
    calls ph i (nativeForkAndSpecialize_post modules uid res) =
      calls ph i (forEachModule (nativeForkAndSpecialize_post.body uid res) 0 modules ()).2 := by
  unfold nativeForkAndSpecialize_post
  rw [calls_append]
  split <;> simp [calls, Event.hook]

/-- C4. In fork-and-specialize pre- and post-dispatch, a plugin at position `i`
that has the capability of the phase is called once or not at all. If it has a uid
filter of its own, it is called exactly when that filter does not skip the uid seen
at that point, and the default filter is not evaluated for it; if it has none, it
is called exactly when the default filter does not skip that uid. The uid seen in
pre-dispatch is the one left by the plugins before `i`; in post-dispatch it is the
argument. Hence, when no pre-hook rewrites the uid, the number of calls of the
plugin is the same in any other plugin list that holds it (at a position `j`), for
the same uid; in post-dispatch this holds outright. -/
theorem uid_filter_is_per_plugin (modules : List Module) (i : Nat) (m : Module)
    (hm : modules[i]? = some m) :
    (m.hasForkAndSpecializePre = true → ∀ a : ForkAndSpecializeArgs,
      (m.hasShouldSkipUid = true →
        calls Phase.forkAndSpecializePre i (nativeForkAndSpecialize_pre modules a).2 =
          (if m.shouldSkipUid (nativeForkAndSpecialize_pre (modules.take i) a).1.uid = true
            then 0 else 1) ∧
        ∀ x, Event.shouldSkipUid i x ∉ (nativeForkAndSpecialize_pre modules a).2) ∧
      (m.hasShouldSkipUid = false →
        calls Phase.forkAndSpecializePre i (nativeForkAndSpecialize_pre modules a).2 =
          (if shouldSkipUid (nativeForkAndSpecialize_pre (modules.take i) a).1.uid = 0
            then 1 else 0))) ∧
    (m.hasForkAndSpecializePost = true → ∀ uid res : Int,
      (m.hasShouldSkipUid = true →
        calls Phase.forkAndSpecializePost i (nativeForkAndSpecialize_post modules uid res) =
          (if m.shouldSkipUid uid = true then 0 else 1) ∧
        ∀ x, Event.shouldSkipUid i x ∉ nativeForkAndSpecialize_post modules uid res) ∧
      (m.hasShouldSkipUid = false →
        calls Phase.forkAndSpecializePost i (nativeForkAndSpecialize_post modules uid res) =
          (if shouldSkipUid uid = 0 then 1 else 0))) ∧
    (∀ (others : List Module) (j : Nat), others[j]? = some m →
      (∀ p ∈ modules, ∀ x, (p.forkAndSpecializePre x).uid = x.uid) →
      (∀ p ∈ others, ∀ x, (p.forkAndSpecializePre x).uid = x.uid) →
      ∀ a b : ForkAndSpecializeArgs, a.uid = b.uid →
        calls Phase.forkAndSpecializePre i (nativeForkAndSpecialize_pre modules a).2 =
          calls Phase.forkAndSpecializePre j (nativeForkAndSpecialize_pre others b).2) ∧
    (∀ (others : List Module) (j : Nat), others[j]? = some m → ∀ uid res : Int,
      calls Phase.forkAndSpecializePost i (nativeForkAndSpecialize_post modules uid res) =
        calls Phase.forkAndSpecializePost j (nativeForkAndSpecialize_post others uid res)) := by
  have hidx : ∀ k m s e ph j, e ∈ (nativeForkAndSpecialize_pre.body k m s).2 →
      e.hook = some (ph, j) → j = k :=
    fun k m s e ph j he hh => (nativeForkAndSpecialize_pre_body_hook k m s e ph j he hh).2.1
  have hidx2 : ∀ uid res k m s e ph j,
      e ∈ (nativeForkAndSpecialize_post.body uid res k m s).2 →
      e.hook = some (ph, j) → j = k :=
    fun uid res k m s e ph j he hh =>
      (nativeForkAndSpecialize_post_body_hook uid res k m s e ph j he hh).2.1
  have hpre : ∀ (ms : List Module) (k : Nat), ms[k]? = some m → ∀ a,
      calls Phase.forkAndSpecializePre k (nativeForkAndSpecialize_pre ms a).2 =
        if m.hasForkAndSpecializePre = true ∧
          (if m.hasShouldSkipUid = true then
            m.shouldSkipUid (nativeForkAndSpecialize_pre (ms.take k) a).1.uid = false
            else shouldSkipUid (nativeForkAndSpecialize_pre (ms.take k) a).1.uid = 0)
        then 1 else 0 := by
    intro ms k hk a
    unfold nativeForkAndSpecialize_pre
    rw [forEachModule_calls_at _ hidx ms a k m hk, nativeForkAndSpecialize_pre_body_calls]
  have hpost : ∀ (ms : List Module) (k : Nat), ms[k]? = some m → ∀ uid res,
      calls Phase.forkAndSpecializePost k (nativeForkAndSpecialize_post ms uid res) =
        if m.hasForkAndSpecializePost = true ∧
          (if m.hasShouldSkipUid = true then m.shouldSkipUid uid = false
            else shouldSkipUid uid = 0)
        then 1 else 0 := by
    intro ms k hk uid res
    rw [nativeForkAndSpecialize_post_calls,
      forEachModule_calls_at _ (hidx2 uid res) ms () k m hk,
      nativeForkAndSpecialize_post_body_calls]
  refine ⟨?_, ?_, ?_, ?_⟩
  · intro hcap a
    refine ⟨fun hf => ⟨?_, ?_⟩, fun hf => ?_⟩
    · rw [hpre modules i hm a]
      cases h : m.shouldSkipUid (nativeForkAndSpecialize_pre (List.take i modules) a).1.uid <;>
        simp [hcap, hf, h]
    · intro x hx
      obtain ⟨k, m1, hk, hmem⟩ := (mem_forEachModule _ modules 0 a _).1 hx
      obtain ⟨hik, hno⟩ := nativeForkAndSpecialize_pre_body_default _ _ _ _ _ hmem
      have : i = k := by omega
      subst this
      rw [hm] at hk
      cases hk
      rw [hf] at hno
      cases hno
    · rw [hpre modules i hm a]
      simp [hcap, hf]
  · intro hcap uid res
    refine ⟨fun hf => ⟨?_, ?_⟩, fun hf => ?_⟩
    · rw [hpost modules i hm uid res]
      cases h : m.shouldSkipUid uid <;> simp [hcap, hf, h]
    · intro x hx
      unfold nativeForkAndSpecialize_post at hx
      have hx2 : Event.shouldSkipUid i x ∈
          (forEachModule (nativeForkAndSpecialize_post.body uid res) 0 modules ()).2 := by
        rcases List.mem_append.1 hx with h | h
        · split at h <;> simp at h
        · exact h
      obtain ⟨k, m1, hk, hmem⟩ := (mem_forEachModule _ modules 0 () _).1 hx2
      obtain ⟨hik, hno⟩ := nativeForkAndSpecialize_post_body_default _ _ _ _ _ _ _ hmem
      have : i = k := by omega
      subst this
      rw [hm] at hk
      cases hk
      rw [hf] at hno
      cases hno
    · rw [hpost modules i hm uid res]
      simp [hcap, hf]
  · intro others j hj hms hos a b hab
    rw [hpre modules i hm a, hpre others j hj b]
    have e1 : (nativeForkAndSpecialize_pre (modules.take i) a).1.uid = a.uid :=
      nativeForkAndSpecialize_pre_uid _ (fun p hp => hms p (List.mem_of_mem_take hp)) 0 a
    have e2 : (nativeForkAndSpecialize_pre (others.take j) b).1.uid = b.uid :=
      nativeForkAndSpecialize_pre_uid _ (fun p hp => hos p (List.mem_of_mem_take hp)) 0 b
    rw [e1, e2, hab]
  · intro others j hj uid res
    rw [hpost modules i hm uid res, hpost others j hj uid res]

/-- Witness of C4: in `[sampleFull, sampleFiltered]` at uid 10005 the plugin with
its own filter (which skips exactly 10005) is not called and the plugin under the
default filter is called once, before and after the native call; and the plugin
with its own filter is called as often as when it is alone in the list. -/
theorem uid_filter_is_per_plugin_witness :
    calls Phase.forkAndSpecializePre 1
      (nativeForkAndSpecialize_pre [sampleFull, sampleFiltered] (sampleForkArgs 10005)).2 = 0 ∧
    calls Phase.forkAndSpecializePre 0
      (nativeForkAndSpecialize_pre [sampleFull, sampleFiltered] (sampleForkArgs 10005)).2 = 1 ∧
    calls Phase.forkAndSpecializePost 1
      (nativeForkAndSpecialize_post [sampleFull, sampleFiltered] 10005 0) = 0 ∧
    calls Phase.forkAndSpecializePost 0
      (nativeForkAndSpecialize_post [sampleFull, sampleFiltered] 10005 0) = 1 ∧
    calls Phase.forkAndSpecializePre 1
      (nativeForkAndSpecialize_pre [sampleFull, sampleFiltered] (sampleForkArgs 1000)).2 =
      calls Phase.forkAndSpecializePre 0
        (nativeForkAndSpecialize_pre [sampleFiltered] (sampleForkArgs 1000)).2 ∧
    calls Phase.forkAndSpecializePost 1
      (nativeForkAndSpecialize_post [sampleFull, sampleFiltered] 1000 0) =
      calls Phase.forkAndSpecializePost 0
        (nativeForkAndSpecialize_post [sampleFiltered] 1000 0) :=
  have h1 := uid_filter_is_per_plugin [sampleFull, sampleFiltered] 1 sampleFiltered rfl
  have h0 := uid_filter_is_per_plugin [sampleFull, sampleFiltered] 0 sampleFull rfl
  ⟨((h1.1 rfl (sampleForkArgs 10005)).1 rfl).1.trans (by decide),
    ((h0.1 rfl (sampleForkArgs 10005)).2 rfl).trans (by decide),
    ((h1.2.1 rfl 10005 0).1 rfl).1.trans (by decide),
    ((h0.2.1 rfl 10005 0).2 rfl).trans (by decide),
    h1.2.2.1 [sampleFiltered] 0 rfl
      (by intro p hp x; simp at hp; rcases hp with rfl | rfl <;> rfl)
      (by intro p hp x; simp at hp; subst hp; rfl) _ _ rfl,
    h1.2.2.2 [sampleFiltered] 0 rfl 1000 0⟩

/-- The append rule for `preCalls`. -/
theorem preCalls_append (xs ys : List Event) :
    preCalls (xs ++ ys) = preCalls xs ++ preCalls ys := by
  simp [preCalls, List.filterMap_append]

/-- One pass of the fork-and-specialize pre loop: when the plugin has the
capability and the filter that applies to it does not skip the current uid, the
pass calls the pre-hook once, on the current fields, and leaves what the hook
left; otherwise it calls no hook and leaves the fields as they are. -/
theorem nativeForkAndSpecialize_pre_body_eq (k : Nat) (m : Module)
    (a : ForkAndSpecializeArgs) :
    (preCalls (nativeForkAndSpecialize_pre.body k m a).2 = [(k, a)] ∧
        (nativeForkAndSpecialize_pre.body k m a).1 = m.forkAndSpecializePre a) ∨
      (preCalls (nativeForkAndSpecialize_pre.body k m a).2 = [] ∧
        (nativeForkAndSpecialize_pre.body k m a).1 = a) := by
  unfold nativeForkAndSpecialize_pre.body preCalls
  cases h1 : m.hasForkAndSpecializePre <;> cases h2 : m.hasShouldSkipUid <;>
    cases h3 : m.shouldSkipUid a.uid <;> by_cases h4 : shouldSkipUid a.uid = 0 <;>
    simp [h1, h2, h3, h4]

/-- The pre-hook calls of the loop over a suffix of the plugin list thread the
fields from the state in which the loop starts to the state in which it ends. -/
theorem threaded_forEachModule (modules front : List Module) (rest : List Module)
    (h : modules = front ++ rest) (a : ForkAndSpecializeArgs) :
    threaded modules a
      (preCalls (forEachModule nativeForkAndSpecialize_pre.body front.length rest a).2)
      (forEachModule nativeForkAndSpecialize_pre.body front.length rest a).1 = true := by
  induction rest generalizing front a with
  | nil => simp [forEachModule, preCalls, threaded]
  | cons m ms ih =>
    have hm : modules[front.length]? = some m := by
      rw [h, List.getElem?_append_right (Nat.le_refl _)]
      simp
    have h2 : modules = (front ++ [m]) ++ ms := by
      rw [h]; simp
    have ih2 := fun b => ih (front ++ [m]) h2 b
    simp only [List.length_append, List.length_singleton] at ih2
    simp only [forEachModule, preCalls_append]
    rcases nativeForkAndSpecialize_pre_body_eq front.length m a with ⟨e1, e2⟩ | ⟨e1, e2⟩
    · rw [e1, e2]
      simp only [List.singleton_append, threaded, hm, decide_True, Bool.true_and]
      exact ih2 _
    · rw [e1, e2]
      simpa using ih2 a

/-- The pre-hook calls of a loop started at position `i0` are for plugins at
increasing positions, all from `i0` on. -/
theorem preCalls_forEachModule_increasing (ms : List Module) (i0 : Nat)
    (a : ForkAndSpecializeArgs) :
    ((preCalls (forEachModule nativeForkAndSpecialize_pre.body i0 ms a).2).map
        Prod.fst).Pairwise (fun x y => x < y) ∧
      ∀ j ∈ (preCalls (forEachModule nativeForkAndSpecialize_pre.body i0 ms a).2).map
        Prod.fst, i0 ≤ j := by
  induction ms generalizing i0 a with
  | nil => simp [forEachModule, preCalls]
  | cons m ms ih =>
    simp only [forEachModule, preCalls_append]
    rcases nativeForkAndSpecialize_pre_body_eq i0 m a with ⟨e1, e2⟩ | ⟨e1, e2⟩
    · rw [e1, e2]
      obtain ⟨ih1, ih2⟩ := ih (i0 + 1) (m.forkAndSpecializePre a)
      simp only [List.singleton_append, List.map_cons, List.pairwise_cons, List.mem_cons]
      refine ⟨⟨fun j hj => ?_, ih1⟩, fun j hj => ?_⟩
      · have := ih2 j hj
        omega
      · rcases hj with rfl | hj
        · exact Nat.le_refl _
        · have := ih2 j hj
          omega
    · rw [e1, e2]
      obtain ⟨ih1, ih2⟩ := ih (i0 + 1) a
      simp only [List.nil_append]
      refine ⟨ih1, fun j hj => ?_⟩
      have := ih2 j hj
      omega
/-- The shape of a run of a fork-and-specialize trampoline: the pre-dispatch on the
fields the variant presents, one call of the original on some argument list, and
the post-dispatch on the uid left by the pre-dispatch and the result of that call,
which is the value returned. The argument list is the one the trampoline passes
when it is called with an empty plugin list on the fields left by the
pre-dispatch. -/
theorem runFork_shape (modules : List Module) (fnPtr : List JValue → Int) (c : ForkCall)
    (v : ForkVariant) :
    ∃ call : List JValue,
      runFork modules fnPtr c v =
        (fnPtr call,
          (nativeForkAndSpecialize_pre modules (v.presented c.args)).2
            ++ [Event.fnPtr call]
            ++ nativeForkAndSpecialize_post modules
                (nativeForkAndSpecialize_pre modules (v.presented c.args)).1.uid
                (fnPtr call)) ∧
      origCalls (runFork [] fnPtr
        { c with args := (nativeForkAndSpecialize_pre modules (v.presented c.args)).1 } v).2 =
        [call] := by
  cases v <;> refine ⟨_, rfl, ?_⟩ <;>
    simp [runFork, nativeForkAndSpecialize_marshmallow, nativeForkAndSpecialize_oreo,
      nativeForkAndSpecialize_p, nativeForkAndSpecialize_q_alternative,
      nativeForkAndSpecialize_r, nativeForkAndSpecialize_r_dp3, nativeForkAndSpecialize_r_dp2,
      nativeForkAndSpecialize_samsung_p, nativeForkAndSpecialize_samsung_o,
      nativeForkAndSpecialize_samsung_n, nativeForkAndSpecialize_samsung_m,
      nativeForkAndSpecialize_pre, nativeForkAndSpecialize_post, forEachModule, origCalls,
      ForkVariant.presented, ForkVariant.carries, ForkVariant.carried]
/-- Every call made by a pass of the fork-and-specialize pre loop is a loop call. -/
theorem nativeForkAndSpecialize_pre_body_fromLoop (k : Nat) (m : Module)
    (a : ForkAndSpecializeArgs) (e : Event)
    (he : e ∈ (nativeForkAndSpecialize_pre.body k m a).2) : e.fromLoop = true := by
  unfold nativeForkAndSpecialize_pre.body at he
  cases h1 : m.hasForkAndSpecializePre <;> cases h2 : m.hasShouldSkipUid <;>
    cases h3 : m.shouldSkipUid a.uid <;> by_cases h4 : shouldSkipUid a.uid = 0 <;>
    simp [h1, h2, h3, h4] at he <;>
    (try rcases he with he | he) <;> (try subst he) <;> simp_all [Event.fromLoop]

/-- The same for the fork-and-specialize post loop. -/
theorem nativeForkAndSpecialize_post_body_fromLoop (uid res : Int) (k : Nat) (m : Module)
    (s : Unit) (e : Event)
    (he : e ∈ (nativeForkAndSpecialize_post.body uid res k m s).2) : e.fromLoop = true := by
  unfold nativeForkAndSpecialize_post.body at he
  cases h1 : m.hasForkAndSpecializePost <;> cases h2 : m.hasShouldSkipUid <;>
    cases h3 : m.shouldSkipUid uid <;> by_cases h4 : shouldSkipUid uid = 0 <;>
    by_cases h5 : res = 0 <;>
    simp [h1, h2, h3, h4, h5] at he <;>
    (try rcases he with he | he | he) <;> (try rcases he with he | he) <;>
    simp_all [Event.fromLoop]

/-- The same for the specialize-app-process pre loop. -/
theorem nativeSpecializeAppProcess_pre_body_fromLoop (k : Nat) (m : Module)
    (a : SpecializeAppProcessArgs) (e : Event)
    (he : e ∈ (nativeSpecializeAppProcess_pre.body k m a).2) : e.fromLoop = true := by
  unfold nativeSpecializeAppProcess_pre.body at he
  cases h1 : m.hasSpecializeAppProcessPre <;> simp [h1] at he
  subst he
  rfl

/-- The same for the specialize-app-process post loop. -/
theorem nativeSpecializeAppProcess_post_body_fromLoop (k : Nat) (m : Module)
    (s : Unit) (e : Event)
    (he : e ∈ (nativeSpecializeAppProcess_post.body k m s).2) : e.fromLoop = true := by
  unfold nativeSpecializeAppProcess_post.body at he
  cases h1 : m.hasSpecializeAppProcessPost <;> simp [h1] at he
  rcases he with he | he <;> subst he <;> rfl

/-- The same for the fork-system-server pre loop. -/
theorem nativeForkSystemServer_pre_body_fromLoop (k : Nat) (m : Module)
    (a : ForkSystemServerArgs) (e : Event)
    (he : e ∈ (nativeForkSystemServer_pre.body k m a).2) : e.fromLoop = true := by
  unfold nativeForkSystemServer_pre.body at he
  cases h1 : m.hasForkSystemServerPre <;> simp [h1] at he
  subst he
  rfl

/-- The same for the fork-system-server post loop. -/
theorem nativeForkSystemServer_post_body_fromLoop (res : Int) (k : Nat) (m : Module)
    (s : Unit) (e : Event)
    (he : e ∈ (nativeForkSystemServer_post.body res k m s).2) : e.fromLoop = true := by
  unfold nativeForkSystemServer_post.body at he
  cases h1 : m.hasForkSystemServerPost <;> by_cases h5 : res = 0 <;>
    simp [h1, h5] at he <;> (try rcases he with he | he) <;> (try subst he) <;>
    simp_all [Event.fromLoop]

/-- A loop whose passes make loop calls only makes loop calls only. -/
theorem forEachModule_fromLoop {σ : Type} (body : Nat → Module → σ → σ × List Event)
    (hbody : ∀ k m s e, e ∈ (body k m s).2 → e.fromLoop = true)
    (ms : List Module) (i0 : Nat) (s : σ) (e : Event)
    (he : e ∈ (forEachModule body i0 ms s).2) : e.fromLoop = true := by
  obtain ⟨k, m, -, hmem⟩ := (mem_forEachModule body ms i0 s e).1 he
  exact hbody _ _ _ _ hmem

/-- The append rule for `origCalls`. -/
theorem origCalls_append (xs ys : List Event) :
    origCalls (xs ++ ys) = origCalls xs ++ origCalls ys := by
  simp [origCalls, List.filterMap_append]

/-- A trace of loop calls holds no call of the original. -/
theorem origCalls_eq_nil (xs : List Event) (h : ∀ e ∈ xs, e.fromLoop = true) :
    origCalls xs = [] := by
  unfold origCalls
  rw [List.filterMap_eq_nil_iff]
  intro e he
  have := h e he
  cases e <;> simp_all [Event.fromLoop]

/-- Every call of the fork-and-specialize post-dispatch is the restoration callback
or a loop call. -/
theorem nativeForkAndSpecialize_post_fromLoop (modules : List Module) (uid res : Int)
    (e : Event) (he : e ∈ nativeForkAndSpecialize_post modules uid res) :
    e = Event.restore_replaced_func ∨ e.fromLoop = true := by
  unfold nativeForkAndSpecialize_post at he
  rcases List.mem_append.1 he with h | h
  · left
    split at h <;> simp at h
    exact h
  · right
    exact forEachModule_fromLoop _ (nativeForkAndSpecialize_post_body_fromLoop uid res)
      _ _ _ _ h

/-- The post-dispatch of fork-and-specialize calls neither the original nor a
pre-hook. -/
theorem nativeForkAndSpecialize_post_no_orig_no_pre (modules : List Module) (uid res : Int) :
    origCalls (nativeForkAndSpecialize_post modules uid res) = [] ∧
      preCalls (nativeForkAndSpecialize_post modules uid res) = [] := by
  constructor
  · unfold origCalls
    rw [List.filterMap_eq_nil_iff]
    intro e he
    rcases nativeForkAndSpecialize_post_fromLoop modules uid res e he with h | h
    · subst h; rfl
    · cases e <;> simp_all [Event.fromLoop]
  · unfold preCalls
    rw [List.filterMap_eq_nil_iff]
    intro e he
    unfold nativeForkAndSpecialize_post at he
    rcases List.mem_append.1 he with h | h
    · split at h <;> simp at h
      subst h; rfl
    · obtain ⟨k, m, -, hmem⟩ := (mem_forEachModule _ modules 0 () e).1 h
      cases e <;> try rfl
      rename_i j x
      have := nativeForkAndSpecialize_post_body_hook uid res _ m () _ _ _ hmem rfl
      simp at this
/-- The run of a fork-and-specialize trampoline, with the argument list of the
original spelled out: the fields left by the pre-dispatch, in the order of the
native signature of the variant. -/
theorem runFork_nativeArgs (modules : List Module) (fnPtr : List JValue → Int)
    (c : ForkCall) (v : ForkVariant) :
    runFork modules fnPtr c v =
      (fnPtr (v.nativeArgs (nativeForkAndSpecialize_pre modules (v.presented c.args)).1 c),
        (nativeForkAndSpecialize_pre modules (v.presented c.args)).2
          ++ [Event.fnPtr
              (v.nativeArgs (nativeForkAndSpecialize_pre modules (v.presented c.args)).1 c)]
          ++ nativeForkAndSpecialize_post modules
              (nativeForkAndSpecialize_pre modules (v.presented c.args)).1.uid
              (fnPtr
                (v.nativeArgs (nativeForkAndSpecialize_pre modules (v.presented c.args)).1
                  c))) := by
  cases v <;> rfl

/-- C5. In a run of any fork-and-specialize trampoline with any plugin list: the
pre-hook calls are made in registration order; the first plugin called is shown the
fields the trampoline presents, every later one is shown the fields as the pre-hook
of the plugin called before it left them, so that a value written by an earlier
plugin is the value a later one reads; and the original native function is called
once, its argument list being, field by field in the order of the native signature
of the variant, the fields as the last pre-hook left them (the fields of the caller
when no plugin is called), with the Samsung-only integers of the caller. That list
is also the one the trampoline would pass had it been called, with no plugin at
all, on the fields so left. For `nativeForkAndSpecialize_r`, whose signature has
every field, the list is the eighteen fields so left. The same threading holds for
the dispatcher `nativeForkAndSpecialize_pre` on any fields `a`. -/
theorem pre_hook_rewrites_are_visible (modules : List Module) (fnPtr : List JValue → Int)
    (c : ForkCall) (v : ForkVariant) (a : ForkAndSpecializeArgs) :
    threaded modules a (preCalls (nativeForkAndSpecialize_pre modules a).2)
      (nativeForkAndSpecialize_pre modules a).1 = true ∧
    threaded modules (v.presented c.args) (preCalls (runFork modules fnPtr c v).2)
      (nativeForkAndSpecialize_pre modules (v.presented c.args)).1 = true ∧
    ((preCalls (runFork modules fnPtr c v).2).map Prod.fst).Pairwise (fun x y => x < y) ∧
    origCalls (runFork modules fnPtr c v).2 =
      [v.nativeArgs (nativeForkAndSpecialize_pre modules (v.presented c.args)).1 c] ∧
    origCalls (runFork modules fnPtr c v).2 =
      origCalls (runFork [] fnPtr
        { c with args := (nativeForkAndSpecialize_pre modules (v.presented c.args)).1 } v).2 ∧
    (origCalls (runFork modules fnPtr c v).2).length = 1 ∧
    origCalls (runFork modules fnPtr c ForkVariant.r).2 =
      [(nativeForkAndSpecialize_pre modules c.args).1.toJValues] := by
  have hpre : ∀ b, origCalls (nativeForkAndSpecialize_pre modules b).2 = [] := fun b =>
    origCalls_eq_nil _
      (forEachModule_fromLoop _ nativeForkAndSpecialize_pre_body_fromLoop modules 0 b)
  have hshape : ∀ w : ForkVariant, ∃ call : List JValue,
      preCalls (runFork modules fnPtr c w).2 =
        preCalls (nativeForkAndSpecialize_pre modules (w.presented c.args)).2 ∧
      origCalls (runFork modules fnPtr c w).2 = [call] ∧
      origCalls (runFork [] fnPtr
        { c with args := (nativeForkAndSpecialize_pre modules (w.presented c.args)).1 } w).2 =
        [call] := by
    intro w
    obtain ⟨call, hrun, horig⟩ := runFork_shape modules fnPtr c w
    refine ⟨call, ?_, ?_, horig⟩
    · rw [hrun]
      simp only [preCalls_append,
        (nativeForkAndSpecialize_post_no_orig_no_pre modules _ _).2]
      simp [preCalls]
    · rw [hrun]
      simp only [origCalls_append, hpre,
        (nativeForkAndSpecialize_post_no_orig_no_pre modules _ _).1]
      simp [origCalls]
  have habs : origCalls (runFork modules fnPtr c v).2 =
      [v.nativeArgs (nativeForkAndSpecialize_pre modules (v.presented c.args)).1 c] := by
    rw [runFork_nativeArgs]
    simp only [origCalls_append, hpre,
      (nativeForkAndSpecialize_post_no_orig_no_pre modules _ _).1]
    simp [origCalls]
  obtain ⟨call, h1, h2, h3⟩ := hshape v
  refine ⟨threaded_forEachModule modules [] modules rfl a, ?_, ?_, habs, ?_, ?_, ?_⟩
  · rw [h1]
    exact threaded_forEachModule modules [] modules rfl _
  · rw [h1]
    exact (preCalls_forEachModule_increasing modules 0 _).1
  · rw [h2, h3]
  · rw [h2]
    rfl
  · obtain ⟨call2, -, h5, h6⟩ := hshape ForkVariant.r
    rw [h5, ← h6]
    simp [runFork, nativeForkAndSpecialize_r, nativeForkAndSpecialize_pre,
      nativeForkAndSpecialize_post, forEachModule, origCalls,
      ForkVariant.presented, ForkVariant.carries, ForkVariant.carried,
      ForkAndSpecializeArgs.toJValues]

/-- Witness of C5: with the plugins `[sampleRewriter, sampleFull]`, the second
plugin is shown the `gid` and `is_child_zygote` written by the first, and the
original receives them: all eighteen fields for the variant `r`, and for the
variant `samsung_n`, whose signature lacks `is_child_zygote`, the rewritten `gid`
among its fourteen arguments, with the Samsung-only integers 7, 8 and 9 of the
caller in their places. -/
theorem pre_hook_rewrites_are_visible_witness :
    preCalls (runFork [sampleRewriter, sampleFull] (fun _ => 0)
        ⟨sampleForkArgs 10005, 0, 0, 0⟩ ForkVariant.r).2 =
      [(0, sampleForkArgs 10005),
        (1, { sampleForkArgs 10005 with gid := 4242, is_child_zygote := true })] ∧
    origCalls (runFork [sampleRewriter, sampleFull] (fun _ => 0)
        ⟨sampleForkArgs 10005, 0, 0, 0⟩ ForkVariant.r).2 =
      [({ sampleForkArgs 10005 with gid := 4242, is_child_zygote := true }
        : ForkAndSpecializeArgs).toJValues] ∧
    origCalls (runFork [sampleRewriter, sampleFull] (fun _ => 0)
        ⟨sampleForkArgs 10005, 7, 8, 9⟩ ForkVariant.samsung_n).2 =
      [[.jint 10005, .jint 4242, .jobject none, .jint 0, .jobject none, .jint 0,
        .jobject none, .jint 7, .jint 8, .jobject none, .jobject none, .jobject none,
        .jobject none, .jint 9]] :=
  ⟨by decide,
    (pre_hook_rewrites_are_visible [sampleRewriter, sampleFull] (fun _ => 0)
      ⟨sampleForkArgs 10005, 0, 0, 0⟩ ForkVariant.r
      (sampleForkArgs 10005)).2.2.2.2.2.2.trans (by decide),
    (pre_hook_rewrites_are_visible [sampleRewriter, sampleFull] (fun _ => 0)
      ⟨sampleForkArgs 10005, 7, 8, 9⟩ ForkVariant.samsung_n
      (sampleForkArgs 10005)).2.2.2.1.trans (by decide)⟩

/-- The pre-hook calls in a run of a fork-and-specialize trampoline are those of
the pre-dispatch on the fields the variant presents. -/
theorem runFork_preCalls (modules : List Module) (fnPtr : List JValue → Int) (c : ForkCall)
    (v : ForkVariant) :
    preCalls (runFork modules fnPtr c v).2 =
      preCalls (nativeForkAndSpecialize_pre modules (v.presented c.args)).2 := by
  obtain ⟨call, hrun, -⟩ := runFork_shape modules fnPtr c v
  rw [hrun]
  simp only [preCalls_append, (nativeForkAndSpecialize_post_no_orig_no_pre modules _ _).2]
  simp [preCalls]

/-- The first pre-hook call of the fork-and-specialize pre loop, if there is one,
is shown the fields with which the loop starts. -/
theorem preCalls_forEachModule_head (ms : List Module) (i0 : Nat)
    (a : ForkAndSpecializeArgs) (i : Nat) (seen : ForkAndSpecializeArgs)
    (h : (preCalls (forEachModule nativeForkAndSpecialize_pre.body i0 ms a).2).head? =
      some (i, seen)) : seen = a := by
  induction ms generalizing i0 with
  | nil => simp [forEachModule, preCalls] at h
  | cons m ms ih =>
    simp only [forEachModule, preCalls_append] at h
    rcases nativeForkAndSpecialize_pre_body_eq i0 m a with ⟨e1, e2⟩ | ⟨e1, e2⟩
    · rw [e1] at h
      simp at h
      exact h.2.symm
    · rw [e1, e2] at h
      exact ih (i0 + 1) (by simpa using h)

/-- The append rule for `specializePreCalls`. -/
theorem specializePreCalls_append (xs ys : List Event) :
    specializePreCalls (xs ++ ys) = specializePreCalls xs ++ specializePreCalls ys := by
  simp [specializePreCalls, List.filterMap_append]

/-- One pass of the specialize-app-process pre loop: a plugin with the capability
is called once, on the current fields, and the pass leaves what its hook left; a
plugin without it is not called. -/
theorem nativeSpecializeAppProcess_pre_body_eq (k : Nat) (m : Module)
    (a : SpecializeAppProcessArgs) :
    (m.hasSpecializeAppProcessPre = true ∧
        specializePreCalls (nativeSpecializeAppProcess_pre.body k m a).2 = [(k, a)] ∧
        (nativeSpecializeAppProcess_pre.body k m a).1 = m.specializeAppProcessPre a) ∨
      (m.hasSpecializeAppProcessPre = false ∧
        specializePreCalls (nativeSpecializeAppProcess_pre.body k m a).2 = [] ∧
        (nativeSpecializeAppProcess_pre.body k m a).1 = a) := by
  unfold nativeSpecializeAppProcess_pre.body specializePreCalls
  cases h1 : m.hasSpecializeAppProcessPre <;> simp [h1]

/-- The first pre-hook call of the specialize-app-process pre loop, if there is
one, is shown the fields with which the loop starts. -/
theorem specializePreCalls_forEachModule_head (ms : List Module) (i0 : Nat)
    (a : SpecializeAppProcessArgs) (i : Nat) (seen : SpecializeAppProcessArgs)
    (h : (specializePreCalls
      (forEachModule nativeSpecializeAppProcess_pre.body i0 ms a).2).head? =
      some (i, seen)) : seen = a := by
  induction ms generalizing i0 with
  | nil => simp [forEachModule, specializePreCalls] at h
  | cons m ms ih =>
    simp only [forEachModule, specializePreCalls_append] at h
    rcases nativeSpecializeAppProcess_pre_body_eq i0 m a with ⟨-, e1, e2⟩ | ⟨-, e1, e2⟩
    · rw [e1] at h
      simp at h
      exact h.2.symm
    · rw [e1, e2] at h
      exact ih (i0 + 1) (by simpa using h)

/-- The post-dispatch of specialize-app-process calls no pre-hook. -/
theorem nativeSpecializeAppProcess_post_no_pre (modules : List Module) :
    specializePreCalls (nativeSpecializeAppProcess_post modules) = [] := by
  unfold specializePreCalls
  rw [List.filterMap_eq_nil_iff]
  intro e he
  unfold nativeSpecializeAppProcess_post at he
  rcases List.mem_append.1 he with h | h
  · simp at h
    subst h; rfl
  · obtain ⟨k, m, -, hmem⟩ := (mem_forEachModule _ modules 0 () e).1 h
    cases e <;> try rfl
    rename_i j x
    have := nativeSpecializeAppProcess_post_body_hook _ m () _ _ _ hmem rfl
    simp at this

/-- The shape of a run of a specialize-app-process trampoline: the pre-dispatch on
the fields the variant presents, one call of the original, and the post-dispatch. -/
theorem runSpecialize_shape (modules : List Module) (c : SpecializeCall)
    (v : SpecializeVariant) :
    ∃ call : List JValue,
      runSpecialize modules c v =
        (nativeSpecializeAppProcess_pre modules (v.presented c.args)).2
          ++ [Event.fnPtr call]
          ++ nativeSpecializeAppProcess_post modules := by
  cases v <;> exact ⟨_, rfl⟩

/-- A pass of the fork-and-specialize pre loop for a plugin that has the capability
and is not skipped for the current uid calls the pre-hook of the plugin on the
current fields. -/
theorem nativeForkAndSpecialize_pre_body_selected (k : Nat) (m : Module)
    (a : ForkAndSpecializeArgs) (hcap : m.hasForkAndSpecializePre = true)
    (hsel : m.skipsUid a.uid = false) :
    preCalls (nativeForkAndSpecialize_pre.body k m a).2 = [(k, a)] := by
  unfold Module.skipsUid at hsel
  unfold nativeForkAndSpecialize_pre.body preCalls
  cases h2 : m.hasShouldSkipUid <;> cases h3 : m.shouldSkipUid a.uid <;>
    by_cases h4 : shouldSkipUid a.uid = 0 <;> simp_all

/-- The pre-hook calls in a run of a specialize-app-process trampoline are those of
the pre-dispatch on the fields the variant presents. -/
theorem runSpecialize_preCalls (modules : List Module) (c : SpecializeCall)
    (v : SpecializeVariant) :
    specializePreCalls (runSpecialize modules c v) =
      specializePreCalls (nativeSpecializeAppProcess_pre modules (v.presented c.args)).2 := by
  obtain ⟨call, hrun⟩ := runSpecialize_shape modules c v
  rw [hrun]
  simp only [specializePreCalls_append, nativeSpecializeAppProcess_post_no_pre]
  simp [specializePreCalls]

/-- C6. For every fork-and-specialize and every specialize-app-process trampoline
and every plugin list, the pre-hook calls of a run are those of the pre-dispatch
on the fields the variant presents: in every field the signature of the variant
has, the argument of the caller, and in every field it lacks the default
(`nullptr` for `fdsToIgnore`, `pkgDataInfoList`, `whitelistedDataInfoList`, and
`JNI_FALSE` for `is_child_zygote`, `isTopApp`, `bindMountAppDataDirs`,
`bindMountAppStorageDirs`). The first pre-hook called is shown exactly these
fields; and there is such a call, for the first plugin of the list, whenever that
plugin has the capability of the family and, for fork-and-specialize, is not
skipped for the uid of the caller. For `nativeForkAndSpecialize_marshmallow` the
seven optional fields are all defaults. -/
theorem absent_fields_are_defaulted (modules : List Module) :
    (∀ (fnPtr : List JValue → Int) (v : ForkVariant) (c : ForkCall) (i : Nat)
        (seen : ForkAndSpecializeArgs),
      (preCalls (runFork modules fnPtr c v).2).head? = some (i, seen) →
        seen = v.presented c.args) ∧
    (∀ (v : SpecializeVariant) (c : SpecializeCall) (i : Nat)
        (seen : SpecializeAppProcessArgs),
      (specializePreCalls (runSpecialize modules c v)).head? = some (i, seen) →
        seen = v.presented c.args) ∧
    (∀ (fnPtr : List JValue → Int) (c : ForkCall) (i : Nat) (seen : ForkAndSpecializeArgs),
      (preCalls (runFork modules fnPtr c ForkVariant.marshmallow).2).head? = some (i, seen) →
        seen.fdsToIgnore = none ∧ seen.is_child_zygote = false ∧ seen.isTopApp = false ∧
        seen.pkgDataInfoList = none ∧ seen.whitelistedDataInfoList = none ∧
        seen.bindMountAppDataDirs = false ∧ seen.bindMountAppStorageDirs = false ∧
        seen.uid = c.args.uid ∧ seen.gid = c.args.gid ∧ seen.gids = c.args.gids ∧
        seen.runtime_flags = c.args.runtime_flags ∧ seen.rlimits = c.args.rlimits ∧
        seen.mount_external = c.args.mount_external ∧ seen.se_info = c.args.se_info ∧
        seen.se_name = c.args.se_name ∧ seen.fdsToClose = c.args.fdsToClose ∧
        seen.instructionSet = c.args.instructionSet ∧
        seen.appDataDir = c.args.appDataDir) ∧
    (∀ (fnPtr : List JValue → Int) (v : ForkVariant) (c : ForkCall),
      preCalls (runFork modules fnPtr c v).2 =
        preCalls (nativeForkAndSpecialize_pre modules (v.presented c.args)).2) ∧
    (∀ (v : SpecializeVariant) (c : SpecializeCall),
      specializePreCalls (runSpecialize modules c v) =
        specializePreCalls
          (nativeSpecializeAppProcess_pre modules (v.presented c.args)).2) ∧
    (∀ (fnPtr : List JValue → Int) (v : ForkVariant) (c : ForkCall) (m : Module),
      m.hasForkAndSpecializePre = true → m.skipsUid c.args.uid = false →
        (preCalls (runFork (m :: modules) fnPtr c v).2).head? =
          some (0, v.presented c.args)) ∧
    (∀ (v : SpecializeVariant) (c : SpecializeCall) (m : Module),
      m.hasSpecializeAppProcessPre = true →
        (specializePreCalls (runSpecialize (m :: modules) c v)).head? =
          some (0, v.presented c.args)) := by
  have hfork : ∀ (fnPtr : List JValue → Int) (v : ForkVariant) (c : ForkCall) (i : Nat)
      (seen : ForkAndSpecializeArgs),
      (preCalls (runFork modules fnPtr c v).2).head? = some (i, seen) →
        seen = v.presented c.args := by
    intro fnPtr v c i seen h
    rw [runFork_preCalls] at h
    exact preCalls_forEachModule_head modules 0 _ i seen h
  refine ⟨hfork, ?_, ?_, fun fnPtr v c => runFork_preCalls modules fnPtr c v,
    fun v c => runSpecialize_preCalls modules c v, ?_, ?_⟩
  · intro v c i seen h
    rw [runSpecialize_preCalls] at h
    exact specializePreCalls_forEachModule_head modules 0 _ i seen h
  · intro fnPtr c i seen h
    have := hfork fnPtr ForkVariant.marshmallow c i seen h
    subst this
    simp [ForkVariant.presented, ForkVariant.carries, ForkVariant.carried]
  · intro fnPtr v c m hcap hsel
    rw [runFork_preCalls]
    have huid : (v.presented c.args).uid = c.args.uid := rfl
    have hb := nativeForkAndSpecialize_pre_body_selected 0 m (v.presented c.args) hcap
      (by rw [huid]; exact hsel)
    simp only [nativeForkAndSpecialize_pre, forEachModule, preCalls_append, hb]
    rfl
  · intro v c m hcap
    rw [runSpecialize_preCalls]
    rcases nativeSpecializeAppProcess_pre_body_eq 0 m (v.presented c.args) with
      ⟨-, e1, -⟩ | ⟨hno, -, -⟩
    · simp only [nativeSpecializeAppProcess_pre, forEachModule, specializePreCalls_append, e1]
      rfl
    · rw [hcap] at hno
      cases hno

/-- Witness of C6: with the single plugin `sampleFull` and a caller that gives a
value other than the default in every optional field, each of the eleven
fork-and-specialize and six specialize-app-process trampolines shows the plugin
the caller's value in the optional fields of its own signature and the default in
the others; the expected fields are written out variant by variant. -/
theorem absent_fields_are_defaulted_witness :
    ([(ForkVariant.marshmallow, sampleForkArgs 10005),
      (ForkVariant.oreo, { sampleForkArgs 10005 with fdsToIgnore := some 3 }),
      (ForkVariant.p,
        { sampleForkArgs 10005 with fdsToIgnore := some 3, is_child_zygote := true }),
      (ForkVariant.q_alternative,
        { sampleForkArgs 10005 with
          fdsToIgnore := some 3, is_child_zygote := true, isTopApp := true }),
      (ForkVariant.r,
        { sampleForkArgs 10005 with
          fdsToIgnore := some 3, is_child_zygote := true, isTopApp := true,
          pkgDataInfoList := some 4, whitelistedDataInfoList := some 5,
          bindMountAppDataDirs := true, bindMountAppStorageDirs := true }),
      (ForkVariant.r_dp3,
        { sampleForkArgs 10005 with
          fdsToIgnore := some 3, is_child_zygote := true, isTopApp := true,
          pkgDataInfoList := some 4, bindMountAppStorageDirs := true }),
      (ForkVariant.r_dp2,
        { sampleForkArgs 10005 with
          fdsToIgnore := some 3, is_child_zygote := true, isTopApp := true,
          pkgDataInfoList := some 4 }),
      (ForkVariant.samsung_p,
        { sampleForkArgs 10005 with fdsToIgnore := some 3, is_child_zygote := true }),
      (ForkVariant.samsung_o, { sampleForkArgs 10005 with fdsToIgnore := some 3 }),
      (ForkVariant.samsung_n, sampleForkArgs 10005),
      (ForkVariant.samsung_m, sampleForkArgs 10005)].all fun p =>
        decide ((preCalls (runFork [sampleFull] (fun _ => 0) sampleFullForkCall p.1).2).head?
          = some (0, p.2))) = true ∧
    ([(SpecializeVariant.q, sampleSpecializeArgs 10005),
      (SpecializeVariant.q_alternative,
        { sampleSpecializeArgs 10005 with isTopApp := true }),
      (SpecializeVariant.r,
        { sampleSpecializeArgs 10005 with
          isTopApp := true, pkgDataInfoList := some 4, whitelistedDataInfoList := some 5,
          bindMountAppDataDirs := true, bindMountAppStorageDirs := true }),
      (SpecializeVariant.r_dp3,
        { sampleSpecializeArgs 10005 with
          isTopApp := true, pkgDataInfoList := some 4, bindMountAppStorageDirs := true }),
      (SpecializeVariant.r_dp2,
        { sampleSpecializeArgs 10005 with isTopApp := true, pkgDataInfoList := some 4 }),
      (SpecializeVariant.samsung_q, sampleSpecializeArgs 10005)].all fun p =>
        decide ((specializePreCalls
          (runSpecialize [sampleFull] sampleFullSpecializeCall p.1)).head?
          = some (0, p.2))) = true ∧
    (preCalls (runFork [sampleFull] (fun _ => 0) sampleFullForkCall
        ForkVariant.oreo).2).head? =
      some (0, { sampleForkArgs 10005 with fdsToIgnore := some 3 }) ∧
    (specializePreCalls (runSpecialize [sampleFull] sampleFullSpecializeCall
        SpecializeVariant.r_dp3)).head? =
      some (0, { sampleSpecializeArgs 10005 with
        isTopApp := true, pkgDataInfoList := some 4, bindMountAppStorageDirs := true }) ∧
    sampleForkArgs 10005 = ForkVariant.marshmallow.presented sampleFullForkCall.args :=
  have h := absent_fields_are_defaulted []
  ⟨by decide, by decide,
    (h.2.2.2.2.2.1 (fun _ => 0) ForkVariant.oreo sampleFullForkCall sampleFull rfl
      (by decide)).trans (by decide),
    (h.2.2.2.2.2.2 SpecializeVariant.r_dp3 sampleFullSpecializeCall sampleFull rfl).trans
      (by decide),
    (absent_fields_are_defaulted [sampleFull]).1 (fun _ => 0) ForkVariant.marshmallow
      sampleFullForkCall 0 (sampleForkArgs 10005) (by decide)⟩

/-- The shape of a run of a fork-system-server trampoline: the pre-dispatch on the
arguments of the caller, one call of the original, and the post-dispatch on the
result of that call, which is the value returned. -/
theorem runServer_shape (modules : List Module) (fnPtr : List JValue → Int) (c : ServerCall)
    (v : ServerVariant) :
    ∃ call : List JValue,
      runServer modules fnPtr c v =
        (fnPtr call,
          (nativeForkSystemServer_pre modules c.args).2
            ++ [Event.fnPtr call]
            ++ nativeForkSystemServer_post modules (fnPtr call)) := by
  cases v <;> exact ⟨_, rfl⟩

/-- C7. For every value-returning trampoline (the eleven fork-and-specialize
variants and the two fork-system-server ones), every plugin list and every
argument tuple, the run calls the original native function exactly once, and the
value the trampoline returns is the result of that call. -/
theorem return_value_is_native_result (modules : List Module) (fnPtr : List JValue → Int) :
    (∀ (v : ForkVariant) (c : ForkCall), ∃ call : List JValue,
      origCalls (runFork modules fnPtr c v).2 = [call] ∧
        (runFork modules fnPtr c v).1 = fnPtr call) ∧
    (∀ (v : ServerVariant) (c : ServerCall), ∃ call : List JValue,
      origCalls (runServer modules fnPtr c v).2 = [call] ∧
        (runServer modules fnPtr c v).1 = fnPtr call) := by
  constructor
  · intro v c
    obtain ⟨call, hrun, -⟩ := runFork_shape modules fnPtr c v
    refine ⟨call, ?_, ?_⟩
    · rw [hrun]
      simp only [origCalls_append,
        (nativeForkAndSpecialize_post_no_orig_no_pre modules _ _).1,
        origCalls_eq_nil _
          (forEachModule_fromLoop _ nativeForkAndSpecialize_pre_body_fromLoop modules 0 _),
        nativeForkAndSpecialize_pre]
      simp [origCalls]
    · rw [hrun]
  · intro v c
    obtain ⟨call, hrun⟩ := runServer_shape modules fnPtr c v
    refine ⟨call, ?_, ?_⟩
    · rw [hrun]
      simp only [origCalls_append, nativeForkSystemServer_pre, nativeForkSystemServer_post,
        origCalls_eq_nil _
          (forEachModule_fromLoop _ nativeForkSystemServer_pre_body_fromLoop modules 0 _),
        origCalls_eq_nil _
          (forEachModule_fromLoop _ (nativeForkSystemServer_post_body_fromLoop _) modules 0 _)]
      simp [origCalls]
    · rw [hrun]

/-- A loop call is not the restoration callback. -/
theorem ne_restore_of_fromLoop (e : Event) (h : e.fromLoop = true) :
    e ≠ Event.restore_replaced_func := by
  intro he
  subst he
  simp [Event.fromLoop] at h

/-- The hook calls of the fork-system-server pre loop started at position `i0`:
one for each plugin with the capability, in the order of the list. -/
theorem nativeForkSystemServer_pre_hooks (ms : List Module) (i0 : Nat)
    (a : ForkSystemServerArgs) :
    (forEachModule nativeForkSystemServer_pre.body i0 ms a).2.filterMap Event.hook =
      (ms.enumFrom i0).filterMap fun p =>
        if p.2.hasForkSystemServerPre = true then some (Phase.forkSystemServerPre, p.1)
        else none := by
  induction ms generalizing i0 a with
  | nil => simp [forEachModule]
  | cons m ms ih =>
    simp only [forEachModule, List.filterMap_append, ih, List.enumFrom_cons,
      List.filterMap_cons]
    unfold nativeForkSystemServer_pre.body
    cases h : m.hasForkSystemServerPre <;> simp [h, Event.hook]

/-- The same for the fork-system-server post loop. -/
theorem nativeForkSystemServer_post_hooks (res : Int) (ms : List Module) (i0 : Nat) :
    (forEachModule (nativeForkSystemServer_post.body res) i0 ms ()).2.filterMap Event.hook =
      (ms.enumFrom i0).filterMap fun p =>
        if p.2.hasForkSystemServerPost = true then some (Phase.forkSystemServerPost, p.1)
        else none := by
  induction ms generalizing i0 with
  | nil => simp [forEachModule]
  | cons m ms ih =>
    simp only [forEachModule, List.filterMap_append, ih, List.enumFrom_cons,
      List.filterMap_cons]
    unfold nativeForkSystemServer_post.body
    cases h : m.hasForkSystemServerPost <;> by_cases h5 : res = 0 <;>
      simp [h, h5, Event.hook]

/-- A pass of the fork-system-server pre loop evaluates no uid filter. -/
theorem nativeForkSystemServer_pre_body_isFilter (k : Nat) (m : Module)
    (a : ForkSystemServerArgs) (e : Event)
    (he : e ∈ (nativeForkSystemServer_pre.body k m a).2) : e.isFilter = false := by
  unfold nativeForkSystemServer_pre.body at he
  cases h1 : m.hasForkSystemServerPre <;> simp [h1] at he
  subst he
  rfl

/-- A pass of the fork-system-server post loop evaluates no uid filter. -/
theorem nativeForkSystemServer_post_body_isFilter (res : Int) (k : Nat) (m : Module)
    (s : Unit) (e : Event)
    (he : e ∈ (nativeForkSystemServer_post.body res k m s).2) : e.isFilter = false := by
  unfold nativeForkSystemServer_post.body at he
  cases h1 : m.hasForkSystemServerPost <;> by_cases h5 : res = 0 <;>
    simp [h1, h5] at he <;> (try rcases he with he | he) <;> (try subst he) <;> rfl

/-- C9. For every plugin list and every argument tuple, whatever the uid,
`nativeForkSystemServer_pre` calls `forkSystemServerPre` on exactly the plugins
that have the fork-system-server-pre capability, each once and in registration
order, and `nativeForkSystemServer_post` does the same for the post capability and
every result; neither evaluates a uid filter, the default one or that of a plugin. -/
theorem fork_system_server_never_filters (modules : List Module) :
    (∀ a : ForkSystemServerArgs,
      (nativeForkSystemServer_pre modules a).2.filterMap Event.hook =
        (modules.enum.filter fun p => p.2.hasForkSystemServerPre).map
          (fun p => (Phase.forkSystemServerPre, p.1)) ∧
      ∀ e ∈ (nativeForkSystemServer_pre modules a).2, e.isFilter = false) ∧
    (∀ res : Int,
      (nativeForkSystemServer_post modules res).filterMap Event.hook =
        (modules.enum.filter fun p => p.2.hasForkSystemServerPost).map
          (fun p => (Phase.forkSystemServerPost, p.1)) ∧
      ∀ e ∈ nativeForkSystemServer_post modules res, e.isFilter = false) := by
  have hfm : ∀ (has : Module → Bool) (ph : Phase) (l : List (Nat × Module)),
      (l.filterMap fun p => if has p.2 = true then some (ph, p.1) else none) =
        (l.filter fun p => has p.2).map (fun p => (ph, p.1)) := by
    intro has ph l
    induction l with
    | nil => rfl
    | cons x xs ih =>
      cases h : has x.2 <;> simp [List.filterMap_cons, List.filter_cons, h, ih]
  constructor
  · intro a
    constructor
    · unfold nativeForkSystemServer_pre
      rw [nativeForkSystemServer_pre_hooks, List.enum]
      exact hfm (fun m => m.hasForkSystemServerPre) _ _
    · intro e he
      obtain ⟨k, m, -, hmem⟩ := (mem_forEachModule _ modules 0 a e).1 he
      exact nativeForkSystemServer_pre_body_isFilter _ _ _ _ hmem
  · intro res
    constructor
    · unfold nativeForkSystemServer_post
      rw [nativeForkSystemServer_post_hooks, List.enum]
      exact hfm (fun m => m.hasForkSystemServerPost) _ _
    · intro e he
      obtain ⟨k, m, -, hmem⟩ := (mem_forEachModule _ modules 0 () e).1 he
      exact nativeForkSystemServer_post_body_isFilter _ _ _ _ _ hmem

/-- Witness of C9: for uid 1000, which the default filter skips and for which
`sampleFiltered` has a filter of its own, both plugins with the capability are
called, in order, and the plugin without it is not. -/
theorem fork_system_server_never_filters_witness :
    (nativeForkSystemServer_pre [sampleFull, sampleNone, sampleFiltered]
        (sampleServerArgs 1000)).2.filterMap Event.hook =
      [(Phase.forkSystemServerPre, 0), (Phase.forkSystemServerPre, 2)] ∧
    (nativeForkSystemServer_post [sampleFull, sampleNone, sampleFiltered]
        (-1)).filterMap Event.hook =
      [(Phase.forkSystemServerPost, 0), (Phase.forkSystemServerPost, 2)] :=
  ⟨((fork_system_server_never_filters [sampleFull, sampleNone, sampleFiltered]).1
      (sampleServerArgs 1000)).1.trans (by decide),
    ((fork_system_server_never_filters [sampleFull, sampleNone, sampleFiltered]).2
      (-1)).1.trans (by decide)⟩

/-- C10, counterexample. The post-hook of fork-and-specialize does not receive the
uid: no function of the hook call gives the uid back. With the one plugin
`sampleFull` and result 0, the post-hook call is the same for uid 10005 and for
uid 10006. -/
theorem post_hook_uid_counterexample :
    ¬ ∃ uidOf : Event → Int, ∀ uid : Int,
      ∀ e ∈ nativeForkAndSpecialize_post [sampleFull] uid 0,
        e.hook = some (Phase.forkAndSpecializePost, 0) → uidOf e = uid := by
  rintro ⟨uidOf, h⟩
  have h1 := h 10005 (Event.forkAndSpecializePost 0 0) (by decide) rfl
  have h2 := h 10006 (Event.forkAndSpecializePost 0 0) (by decide) rfl
  omega

/-- C10, as amended. In fork-and-specialize post-dispatch, every post-hook call
carries the result of the native call and nothing else (the uid only decides, by
the filter that applies to the plugin, whether the plugin is called), and every
plugin that has the capability and is not skipped for the uid is called with that
result. -/
theorem post_hook_receives_result (modules : List Module) (uid res : Int) :
    (∀ e ∈ nativeForkAndSpecialize_post modules uid res, ∀ i,
      e.hook = some (Phase.forkAndSpecializePost, i) →
        e = Event.forkAndSpecializePost i res) ∧
    (∀ (i : Nat) (m : Module), modules[i]? = some m →
      m.hasForkAndSpecializePost = true →
      (if m.hasShouldSkipUid = true then m.shouldSkipUid uid = false
        else shouldSkipUid uid = 0) →
      Event.forkAndSpecializePost i res ∈ nativeForkAndSpecialize_post modules uid res) := by
  constructor
  · intro e he i hh
    unfold nativeForkAndSpecialize_post at he
    rcases List.mem_append.1 he with h | h
    · split at h <;> simp at h
      subst h
      simp [Event.hook] at hh
    · obtain ⟨k, m, -, hmem⟩ := (mem_forEachModule _ modules 0 () e).1 h
      unfold nativeForkAndSpecialize_post.body at hmem
      cases h1 : m.hasForkAndSpecializePost <;> cases h2 : m.hasShouldSkipUid <;>
        cases h3 : m.shouldSkipUid uid <;> by_cases h4 : shouldSkipUid uid = 0 <;>
        by_cases h5 : res = 0 <;>
        simp [h1, h2, h3, h4, h5] at hmem <;>
        (try rcases hmem with hmem | hmem | hmem) <;>
        (try rcases hmem with hmem | hmem) <;>
        simp_all [Event.hook]
  · intro i m hm hcap hsel
    unfold nativeForkAndSpecialize_post
    apply List.mem_append_right
    rw [mem_forEachModule]
    refine ⟨i, m, hm, ?_⟩
    unfold nativeForkAndSpecialize_post.body
    cases h2 : m.hasShouldSkipUid <;> cases h3 : m.shouldSkipUid uid <;>
      by_cases h4 : shouldSkipUid uid = 0 <;> by_cases h5 : res = 0 <;>
      simp_all

/-- Witness of C10: the plugin `sampleFull` at uid 10005 is called with the result
`-1` of the native call. -/
theorem post_hook_receives_result_witness :
    Event.forkAndSpecializePost 0 (-1) ∈ nativeForkAndSpecialize_post [sampleFull] 10005 (-1) :=
  (post_hook_receives_result [sampleFull] 10005 (-1)).2 0 sampleFull rfl rfl (by decide)

/-- The shape of a run of a specialize-app-process trampoline, with the argument
list of the original: it is the one the trampoline passes when it is called, with
no plugin at all, on the fields the pre-dispatch returns to it. -/
theorem runSpecialize_shape_orig (modules : List Module) (c : SpecializeCall)
    (v : SpecializeVariant) :
    ∃ call : List JValue,
      runSpecialize modules c v =
        (nativeSpecializeAppProcess_pre modules (v.presented c.args)).2
          ++ [Event.fnPtr call]
          ++ nativeSpecializeAppProcess_post modules ∧
      origCalls (runSpecialize []
        { c with args := (nativeSpecializeAppProcess_pre modules (v.presented c.args)).1 }
        v) = [call] := by
  cases v <;> refine ⟨_, rfl, ?_⟩ <;>
    simp [runSpecialize, nativeSpecializeAppProcess_q,
      nativeSpecializeAppProcess_q_alternative, nativeSpecializeAppProcess_r,
      nativeSpecializeAppProcess_r_dp3, nativeSpecializeAppProcess_r_dp2,
      nativeSpecializeAppProcess_samsung_q, nativeSpecializeAppProcess_post,
      nativeSpecializeAppProcess_pre, forEachModule, origCalls,
      SpecializeVariant.presented, SpecializeVariant.carries, SpecializeVariant.carried]

/-- The post-dispatch of specialize-app-process does not call the original. -/
theorem nativeSpecializeAppProcess_post_no_orig (modules : List Module) :
    origCalls (nativeSpecializeAppProcess_post modules) = [] := by
  unfold nativeSpecializeAppProcess_post
  rw [origCalls_append, origCalls_eq_nil _
    (forEachModule_fromLoop _ nativeSpecializeAppProcess_post_body_fromLoop modules 0 ())]
  simp [origCalls]

/-- The original is called once in a run of a specialize-app-process trampoline,
with the argument list of `runSpecialize_shape_orig`. -/
theorem runSpecialize_orig (modules : List Module) (c : SpecializeCall)
    (v : SpecializeVariant) :
    origCalls (runSpecialize modules c v) =
      origCalls (runSpecialize []
        { c with args := (nativeSpecializeAppProcess_pre modules (v.presented c.args)).1 }
        v) := by
  obtain ⟨call, hrun, horig⟩ := runSpecialize_shape_orig modules c v
  rw [hrun, horig]
  have hpre : origCalls (nativeSpecializeAppProcess_pre modules (v.presented c.args)).2
      = [] :=
    origCalls_eq_nil _
      (forEachModule_fromLoop _ nativeSpecializeAppProcess_pre_body_fromLoop modules 0 _)
  simp only [origCalls_append, hpre, nativeSpecializeAppProcess_post_no_orig]
  simp [origCalls]

/-- C11, the code at the failing input. `nativeSpecializeAppProcess_pre` takes its
first eleven parameters (`uid` to `appDataDir`) by value: whatever the plugins
write to them, the dispatcher returns the values of the caller in these eleven
fields, and the original is called with the argument list the trampoline passes,
with no plugin at all, on those values (and on the five reference fields as the
plugins left them). With the one plugin `sampleSpecializeRewriter`, whose pre-hook
writes `gid := 4242` and `isTopApp := true`, `nativeSpecializeAppProcess_r` called
with `gid = 0` passes `gid = 0` and `isTopApp = true` to the original. -/
theorem specialize_value_parameters_not_written_back (modules : List Module)
    (c : SpecializeCall) (v : SpecializeVariant) (a : SpecializeAppProcessArgs) :
    ((nativeSpecializeAppProcess_pre modules a).1.uid = a.uid ∧
      (nativeSpecializeAppProcess_pre modules a).1.gid = a.gid ∧
      (nativeSpecializeAppProcess_pre modules a).1.gids = a.gids ∧
      (nativeSpecializeAppProcess_pre modules a).1.runtimeFlags = a.runtimeFlags ∧
      (nativeSpecializeAppProcess_pre modules a).1.rlimits = a.rlimits ∧
      (nativeSpecializeAppProcess_pre modules a).1.mountExternal = a.mountExternal ∧
      (nativeSpecializeAppProcess_pre modules a).1.seInfo = a.seInfo ∧
      (nativeSpecializeAppProcess_pre modules a).1.niceName = a.niceName ∧
      (nativeSpecializeAppProcess_pre modules a).1.startChildZygote = a.startChildZygote ∧
      (nativeSpecializeAppProcess_pre modules a).1.instructionSet = a.instructionSet ∧
      (nativeSpecializeAppProcess_pre modules a).1.appDataDir = a.appDataDir) ∧
    origCalls (runSpecialize modules c v) =
      origCalls (runSpecialize []
        { c with args := (nativeSpecializeAppProcess_pre modules (v.presented c.args)).1 }
        v) ∧
    (sampleSpecializeRewriter.specializeAppProcessPre (sampleSpecializeArgs 10005)).gid
      = 4242 ∧
    origCalls (runSpecialize [sampleSpecializeRewriter] ⟨sampleSpecializeArgs 10005, 0, 0⟩
        SpecializeVariant.r) =
      [[.jint 10005, .jint 0, .jobject none, .jint 0, .jobject none, .jint 0, .jobject none,
        .jobject none, .jboolean false, .jobject none, .jobject none, .jboolean true,
        .jobject none, .jobject none, .jboolean false, .jboolean false]] := by
  refine ⟨⟨rfl, rfl, rfl, rfl, rfl, rfl, rfl, rfl, rfl, rfl, rfl⟩,
    runSpecialize_orig modules c v, by decide, by decide⟩

/-- The hook calls of the specialize-app-process pre loop started at position `i0`:
one for each plugin with the capability, in the order of the list. -/
theorem nativeSpecializeAppProcess_pre_hooks (ms : List Module) (i0 : Nat)
    (a : SpecializeAppProcessArgs) :
    (forEachModule nativeSpecializeAppProcess_pre.body i0 ms a).2.filterMap Event.hook =
      (ms.enumFrom i0).filterMap fun p =>
        if p.2.hasSpecializeAppProcessPre = true then
          some (Phase.specializeAppProcessPre, p.1)
        else none := by
  induction ms generalizing i0 a with
  | nil => simp [forEachModule]
  | cons m ms ih =>
    simp only [forEachModule, List.filterMap_append, ih, List.enumFrom_cons,
      List.filterMap_cons]
    unfold nativeSpecializeAppProcess_pre.body
    cases h : m.hasSpecializeAppProcessPre <;> simp [h, Event.hook]

/-- A pass of the specialize-app-process pre loop evaluates no uid filter. -/
theorem nativeSpecializeAppProcess_pre_body_isFilter (k : Nat) (m : Module)
    (a : SpecializeAppProcessArgs) (e : Event)
    (he : e ∈ (nativeSpecializeAppProcess_pre.body k m a).2) : e.isFilter = false := by
  unfold nativeSpecializeAppProcess_pre.body at he
  cases h1 : m.hasSpecializeAppProcessPre <;> simp [h1] at he
  subst he
  rfl

/-- C12, counterexample. The claim fails at two inputs: in specialize-app-process
pre-dispatch the plugin `sampleFull`, which has the capability and no filter of its
own, is called for uid 1000 although the default filter skips 1000; and the plugin
`sampleFiltered` is called for uid 10005 although its own filter skips 10005. -/
theorem specialize_pre_filter_counterexample :
    ¬ (shouldSkipUid 1000 ≠ 0 →
        calls Phase.specializeAppProcessPre 0
          (nativeSpecializeAppProcess_pre [sampleFull] (sampleSpecializeArgs 1000)).2 = 0) ∧
    ¬ (sampleFiltered.shouldSkipUid 10005 = true →
        calls Phase.specializeAppProcessPre 0
          (nativeSpecializeAppProcess_pre [sampleFiltered]
            (sampleSpecializeArgs 10005)).2 = 0) := by
  decide

/-- C12, as amended. In specialize-app-process pre-dispatch no uid filter is
applied: for every plugin list and every argument tuple, whatever the uid, the
dispatcher calls `specializeAppProcessPre` on exactly the plugins that have the
specialize-app-process-pre capability, each once and in registration order, and
evaluates neither the default filter nor the filter of a plugin. -/
theorem specialize_pre_never_filters (modules : List Module)
    (a : SpecializeAppProcessArgs) :
    (nativeSpecializeAppProcess_pre modules a).2.filterMap Event.hook =
      (modules.enum.filter fun p => p.2.hasSpecializeAppProcessPre).map
        (fun p => (Phase.specializeAppProcessPre, p.1)) ∧
    ∀ e ∈ (nativeSpecializeAppProcess_pre modules a).2, e.isFilter = false := by
  have hfm : ∀ (l : List (Nat × Module)),
      (l.filterMap fun p =>
          if p.2.hasSpecializeAppProcessPre = true then
            some (Phase.specializeAppProcessPre, p.1)
          else none) =
        (l.filter fun p => p.2.hasSpecializeAppProcessPre).map
          (fun p => (Phase.specializeAppProcessPre, p.1)) := by
    intro l
    induction l with
    | nil => rfl
    | cons x xs ih =>
      cases h : x.2.hasSpecializeAppProcessPre <;>
        simp [List.filterMap_cons, List.filter_cons, h, ih]
  refine ⟨?_, ?_⟩
  · show (forEachModule nativeSpecializeAppProcess_pre.body 0 modules a).2.filterMap
      Event.hook = _
    rw [nativeSpecializeAppProcess_pre_hooks, List.enum]
    exact hfm _
  · intro e he
    obtain ⟨k, m, -, hmem⟩ := (mem_forEachModule _ modules 0 a e).1 he
    exact nativeSpecializeAppProcess_pre_body_isFilter _ _ _ _ hmem

/-- Witness of C12: for uid 1000 and the plugins `[sampleFull, sampleNone,
sampleFiltered]`, the two plugins with the capability are called, in order, and the
first call of the trace is no filter evaluation. -/
theorem specialize_pre_never_filters_witness :
    (nativeSpecializeAppProcess_pre [sampleFull, sampleNone, sampleFiltered]
        (sampleSpecializeArgs 1000)).2.filterMap Event.hook =
      [(Phase.specializeAppProcessPre, 0), (Phase.specializeAppProcessPre, 2)] ∧
    (Event.specializeAppProcessPre 0 (sampleSpecializeArgs 1000)).isFilter = false :=
  have h := specialize_pre_never_filters [sampleFull, sampleNone, sampleFiltered]
    (sampleSpecializeArgs 1000)
  ⟨h.1.trans (by decide),
    h.2 (Event.specializeAppProcessPre 0 (sampleSpecializeArgs 1000)) (by decide)⟩

/-- A uid filter evaluated by a pass of the fork-and-specialize pre loop, the
default one or that of the plugin, is evaluated for the plugin of the pass and on
the uid with which the pass starts. -/
theorem nativeForkAndSpecialize_pre_body_filter_uid (k : Nat) (m : Module)
    (a : ForkAndSpecializeArgs) (j : Nat) (x : Int)
    (he : Event.shouldSkipUid j x ∈ (nativeForkAndSpecialize_pre.body k m a).2 ∨
      Event.moduleShouldSkipUid j x ∈ (nativeForkAndSpecialize_pre.body k m a).2) :
    j = k ∧ x = a.uid := by
  unfold nativeForkAndSpecialize_pre.body at he
  cases h1 : m.hasForkAndSpecializePre <;> cases h2 : m.hasShouldSkipUid <;>
    cases h3 : m.shouldSkipUid a.uid <;> by_cases h4 : shouldSkipUid a.uid = 0 <;>
    simp [h1, h2, h3, h4] at he <;> exact he

/-- C13. In fork-and-specialize pre-dispatch every uid filter evaluated for the
plugin at position `i`, the default one or its own, is evaluated on the uid as left
by the plugins before `i` in the same pass. For the caller uid 10005, a plugin A
whose pre-hook rewrites the uid to 1000 and a later plugin B with the capability
and no filter of its own, the default filter is evaluated for B on 1000 and B is
not called, though B is called when A is absent. -/
theorem uid_filter_sees_rewritten_uid (modules : List Module) (a : ForkAndSpecializeArgs)
    (i : Nat) (x : Int) :
    (Event.shouldSkipUid i x ∈ (nativeForkAndSpecialize_pre modules a).2 →
      x = (nativeForkAndSpecialize_pre (modules.take i) a).1.uid) ∧
    (Event.moduleShouldSkipUid i x ∈ (nativeForkAndSpecialize_pre modules a).2 →
      x = (nativeForkAndSpecialize_pre (modules.take i) a).1.uid) ∧
    (nativeForkAndSpecialize_pre [sampleUidRewriter, sampleFull] (sampleForkArgs 10005)).2 =
      [Event.shouldSkipUid 0 10005, Event.forkAndSpecializePre 0 (sampleForkArgs 10005),
        Event.shouldSkipUid 1 1000] ∧
    calls Phase.forkAndSpecializePre 1
      (nativeForkAndSpecialize_pre [sampleUidRewriter, sampleFull]
        (sampleForkArgs 10005)).2 = 0 ∧
    calls Phase.forkAndSpecializePre 0
      (nativeForkAndSpecialize_pre [sampleFull] (sampleForkArgs 10005)).2 = 1 := by
  have key : ∀ e : Event, (e = Event.shouldSkipUid i x ∨ e = Event.moduleShouldSkipUid i x) →
      e ∈ (nativeForkAndSpecialize_pre modules a).2 →
      x = (nativeForkAndSpecialize_pre (modules.take i) a).1.uid := by
    intro e hcase he
    obtain ⟨k, m, -, hmem⟩ := (mem_forEachModule _ modules 0 a e).1 he
    have h2 : 0 + k = k := Nat.zero_add k
    rw [h2] at hmem
    have h := nativeForkAndSpecialize_pre_body_filter_uid k m _ i x
      (by rcases hcase with rfl | rfl
          · exact Or.inl hmem
          · exact Or.inr hmem)
    obtain ⟨hik, hx⟩ := h
    subst hik
    exact hx
  exact ⟨key _ (Or.inl rfl), key _ (Or.inr rfl), by decide, by decide, by decide⟩

/-- Witness of C13: the one filter evaluation for the second plugin of
`[sampleUidRewriter, sampleFull]` is on the uid 1000 that the first plugin left. -/
theorem uid_filter_sees_rewritten_uid_witness :
    (1000 : Int) =
      (nativeForkAndSpecialize_pre ([sampleUidRewriter, sampleFull].take 1)
        (sampleForkArgs 10005)).1.uid :=
  (uid_filter_sees_rewritten_uid [sampleUidRewriter, sampleFull] (sampleForkArgs 10005)
    1 1000).1 (by decide)

/-- One pass of the fork-and-specialize post loop: which hook it calls does not
depend on the result; a hook call carries the result; and it writes one `LOGD`
line per hook call when the result is 0 and none otherwise. -/
theorem nativeForkAndSpecialize_post_body_res (uid res : Int) (k : Nat) (m : Module)
    (s : Unit) :
    (nativeForkAndSpecialize_post.body uid res k m s).2.filterMap Event.hook =
        (nativeForkAndSpecialize_post.body uid 0 k m s).2.filterMap Event.hook ∧
      (∀ e ∈ (nativeForkAndSpecialize_post.body uid res k m s).2, ∀ i,
        e.hook = some (Phase.forkAndSpecializePost, i) →
          e = Event.forkAndSpecializePost i res) ∧
      (nativeForkAndSpecialize_post.body uid res k m s).2.countP Event.isLOGD =
        if res = 0 then
          ((nativeForkAndSpecialize_post.body uid res k m s).2.filterMap Event.hook).length
        else 0 := by
  unfold nativeForkAndSpecialize_post.body
  cases h1 : m.hasForkAndSpecializePost <;> cases h2 : m.hasShouldSkipUid <;>
    cases h3 : m.shouldSkipUid uid <;> by_cases h4 : shouldSkipUid uid = 0 <;>
    by_cases h5 : res = 0 <;>
    simp [h1, h2, h3, h4, h5, Event.hook, Event.isLOGD, List.countP_cons]

/-- The same for one pass of the fork-system-server post loop. -/
theorem nativeForkSystemServer_post_body_res (res : Int) (k : Nat) (m : Module)
    (s : Unit) :
    (nativeForkSystemServer_post.body res k m s).2.filterMap Event.hook =
        (nativeForkSystemServer_post.body 0 k m s).2.filterMap Event.hook ∧
      (∀ e ∈ (nativeForkSystemServer_post.body res k m s).2, ∀ i,
        e.hook = some (Phase.forkSystemServerPost, i) →
          e = Event.forkSystemServerPost i res) ∧
      (nativeForkSystemServer_post.body res k m s).2.countP Event.isLOGD =
        if res = 0 then
          ((nativeForkSystemServer_post.body res k m s).2.filterMap Event.hook).length
        else 0 := by
  unfold nativeForkSystemServer_post.body
  cases h1 : m.hasForkSystemServerPost <;> by_cases h5 : res = 0 <;>
    simp [h1, h5, Event.hook, Event.isLOGD, List.countP_cons]

/-- A loop whose passes call the same hooks for a result as for the result 0, and
write one `LOGD` line per hook call when the result is 0 and none otherwise, does
so as a whole. -/
theorem forEachModule_res (body : Int → Nat → Module → Unit → Unit × List Event)
    (res : Int)
    (hbody : ∀ k m s,
      (body res k m s).2.filterMap Event.hook = (body 0 k m s).2.filterMap Event.hook ∧
      (body res k m s).2.countP Event.isLOGD =
        if res = 0 then ((body res k m s).2.filterMap Event.hook).length else 0)
    (ms : List Module) (i0 : Nat) :
    (forEachModule (body res) i0 ms ()).2.filterMap Event.hook =
        (forEachModule (body 0) i0 ms ()).2.filterMap Event.hook ∧
      (forEachModule (body res) i0 ms ()).2.countP Event.isLOGD =
        if res = 0 then ((forEachModule (body res) i0 ms ()).2.filterMap Event.hook).length
        else 0 := by
  induction ms generalizing i0 with
  | nil => simp [forEachModule]
  | cons m ms ih =>
    obtain ⟨h1, h2⟩ := hbody i0 m ()
    obtain ⟨ih1, ih2⟩ := ih (i0 + 1)
    simp only [forEachModule, List.filterMap_append, List.countP_append, List.length_append]
    refine ⟨by rw [h1, ih1], ?_⟩
    rw [h2, ih2]
    split <;> rfl

/-- C14, counterexample. In fork-system-server post-dispatch the restoration
callback does not happen exactly when the result is 0: with the plugin `sampleFull`
and result 0 it is not called. -/
theorem fork_system_server_post_restore_counterexample :
    ¬ (Event.restore_replaced_func ∈ nativeForkSystemServer_post [sampleFull] 0 ↔
        (0 : Int) = 0) := by
  decide

/-- Keeping the positions of the entries that pass a test is filtering by the test
and then taking the positions. -/
theorem filterMap_ite_eq_map_filter (f : Nat × Module → Bool) (ph : Phase)
    (l : List (Nat × Module)) :
    (l.filterMap fun p => if f p = true then some (ph, p.1) else none) =
      (l.filter f).map (fun p => (ph, p.1)) := by
  induction l with
  | nil => rfl
  | cons x xs ih =>
    cases h : f x <;> simp [List.filterMap_cons, List.filter_cons, h, ih]

/-- The hook calls of the fork-and-specialize post loop started at position `i0`:
one for each plugin that has the capability and is not skipped for the uid, in
the order of the list, whatever the result. -/
theorem nativeForkAndSpecialize_post_hooks (uid res : Int) (ms : List Module) (i0 : Nat) :
    (forEachModule (nativeForkAndSpecialize_post.body uid res) i0 ms ()).2.filterMap
        Event.hook =
      (ms.enumFrom i0).filterMap fun p =>
        if (p.2.hasForkAndSpecializePost && !p.2.skipsUid uid) = true then
          some (Phase.forkAndSpecializePost, p.1)
        else none := by
  induction ms generalizing i0 with
  | nil => simp [forEachModule]
  | cons m ms ih =>
    simp only [forEachModule, List.filterMap_append, ih, List.enumFrom_cons,
      List.filterMap_cons]
    unfold nativeForkAndSpecialize_post.body Module.skipsUid
    cases h1 : m.hasForkAndSpecializePost <;> cases h2 : m.hasShouldSkipUid <;>
      cases h3 : m.shouldSkipUid uid <;> by_cases h4 : shouldSkipUid uid = 0 <;>
      by_cases h5 : res = 0 <;>
      simp [h1, h2, h3, h4, h5, Event.hook]

/-- C14, as amended. For every result `res`, fork-and-specialize post-dispatch
calls the post-hook of exactly the plugins that have the capability and are not
skipped for the uid, and fork-system-server post-dispatch that of exactly the
plugins that have the capability, each once and in registration order, and every
such call carries `res`; so the calls are those made for the result 0. The result
decides only this: one `LOGD` line is written for each post-hook call when
`res = 0` and none otherwise, and fork-and-specialize post-dispatch calls
`restore_replaced_func` exactly when `res = 0`. Fork-system-server post-dispatch
never calls `restore_replaced_func`. -/
theorem post_hooks_run_for_every_result (modules : List Module) (uid res : Int) :
    ((nativeForkAndSpecialize_post modules uid res).filterMap Event.hook =
        (modules.enum.filter fun p =>
            p.2.hasForkAndSpecializePost && !p.2.skipsUid uid).map
          (fun p => (Phase.forkAndSpecializePost, p.1)) ∧
      (nativeForkAndSpecialize_post modules uid res).filterMap Event.hook =
        (nativeForkAndSpecialize_post modules uid 0).filterMap Event.hook ∧
      (∀ e ∈ nativeForkAndSpecialize_post modules uid res, ∀ i,
        e.hook = some (Phase.forkAndSpecializePost, i) →
          e = Event.forkAndSpecializePost i res) ∧
      (Event.restore_replaced_func ∈ nativeForkAndSpecialize_post modules uid res ↔
        res = 0) ∧
      (nativeForkAndSpecialize_post modules uid res).countP Event.isLOGD =
        if res = 0 then
          ((nativeForkAndSpecialize_post modules uid res).filterMap Event.hook).length
        else 0) ∧
    ((nativeForkSystemServer_post modules res).filterMap Event.hook =
        (modules.enum.filter fun p => p.2.hasForkSystemServerPost).map
          (fun p => (Phase.forkSystemServerPost, p.1)) ∧
      (nativeForkSystemServer_post modules res).filterMap Event.hook =
        (nativeForkSystemServer_post modules 0).filterMap Event.hook ∧
      (∀ e ∈ nativeForkSystemServer_post modules res, ∀ i,
        e.hook = some (Phase.forkSystemServerPost, i) →
          e = Event.forkSystemServerPost i res) ∧
      Event.restore_replaced_func ∉ nativeForkSystemServer_post modules res ∧
      (nativeForkSystemServer_post modules res).countP Event.isLOGD =
        if res = 0 then
          ((nativeForkSystemServer_post modules res).filterMap Event.hook).length
        else 0) := by
  have hF := forEachModule_res (nativeForkAndSpecialize_post.body uid) res
    (fun k m s => ⟨(nativeForkAndSpecialize_post_body_res uid res k m s).1,
      (nativeForkAndSpecialize_post_body_res uid res k m s).2.2⟩) modules 0
  have hS := forEachModule_res nativeForkSystemServer_post.body res
    (fun k m s => ⟨(nativeForkSystemServer_post_body_res res k m s).1,
      (nativeForkSystemServer_post_body_res res k m s).2.2⟩) modules 0
  have hFloop : Event.restore_replaced_func ∉
      (forEachModule (nativeForkAndSpecialize_post.body uid res) 0 modules ()).2 :=
    fun h => ne_restore_of_fromLoop _
      (forEachModule_fromLoop _ (nativeForkAndSpecialize_post_body_fromLoop uid res)
        _ _ _ _ h) rfl
  refine ⟨⟨?_, ?_, ?_, ?_, ?_⟩, ⟨?_, hS.1, ?_, ?_, hS.2⟩⟩
  · unfold nativeForkAndSpecialize_post
    rw [List.filterMap_append, nativeForkAndSpecialize_post_hooks, List.enum,
      filterMap_ite_eq_map_filter
        (fun p => p.2.hasForkAndSpecializePost && !p.2.skipsUid uid)]
    split <;> simp [Event.hook]
  · unfold nativeForkAndSpecialize_post
    rw [List.filterMap_append, List.filterMap_append, hF.1]
    congr 1
    split <;> simp [Event.hook]
  · intro e he i hh
    unfold nativeForkAndSpecialize_post at he
    rcases List.mem_append.1 he with h | h
    · split at h <;> simp at h
      subst h
      simp [Event.hook] at hh
    · obtain ⟨k, m, -, hmem⟩ := (mem_forEachModule _ modules 0 () e).1 h
      exact (nativeForkAndSpecialize_post_body_res uid res _ m _).2.1 e hmem i hh
  · unfold nativeForkAndSpecialize_post
    by_cases h0 : res = 0
    · simp [h0]
    · simp only [h0, if_false, List.nil_append, iff_false]
      exact hFloop
  · unfold nativeForkAndSpecialize_post
    rw [List.countP_append, List.filterMap_append, List.length_append, hF.2]
    by_cases h0 : res = 0 <;> simp [h0, Event.hook, Event.isLOGD]
  · unfold nativeForkSystemServer_post
    rw [nativeForkSystemServer_post_hooks, List.enum]
    exact filterMap_ite_eq_map_filter (fun p => p.2.hasForkSystemServerPost) _ _
  · intro e he i hh
    obtain ⟨k, m, -, hmem⟩ := (mem_forEachModule _ modules 0 () e).1 he
    exact (nativeForkSystemServer_post_body_res res _ m _).2.1 e hmem i hh
  · intro h
    exact ne_restore_of_fromLoop _
      (forEachModule_fromLoop _ (nativeForkSystemServer_post_body_fromLoop res)
        _ _ _ _ h) rfl

/-- Witness of C14: with the plugins `[sampleFull, sampleNone, sampleFiltered]` and
the result `-1`, fork-and-specialize post-dispatch for uid 10005 calls the
post-hook of plugin 0 alone (plugin 1 has no capability, plugin 2 skips 10005) and
for uid 1000 that of plugin 2 alone, fork-system-server post-dispatch calls those
of plugins 0 and 2; no `restore_replaced_func` and no `LOGD` line occurs. -/
theorem post_hooks_run_for_every_result_witness :
    (nativeForkAndSpecialize_post [sampleFull, sampleNone, sampleFiltered] 10005
        (-1)).filterMap Event.hook = [(Phase.forkAndSpecializePost, 0)] ∧
    (nativeForkAndSpecialize_post [sampleFull, sampleNone, sampleFiltered] 1000
        (-1)).filterMap Event.hook = [(Phase.forkAndSpecializePost, 2)] ∧
    (nativeForkSystemServer_post [sampleFull, sampleNone, sampleFiltered]
        (-1)).filterMap Event.hook =
      [(Phase.forkSystemServerPost, 0), (Phase.forkSystemServerPost, 2)] ∧
    Event.restore_replaced_func ∉
      nativeForkAndSpecialize_post [sampleFull, sampleNone, sampleFiltered] 10005 (-1) ∧
    (nativeForkAndSpecialize_post [sampleFull, sampleNone, sampleFiltered] 10005
        (-1)).countP Event.isLOGD = 0 ∧
    nativeForkAndSpecialize_post [sampleFull, sampleNone, sampleFiltered] 10005 (-1) =
      [Event.shouldSkipUid 0 10005, Event.forkAndSpecializePost 0 (-1),
        Event.moduleShouldSkipUid 2 10005] :=
  have h := post_hooks_run_for_every_result [sampleFull, sampleNone, sampleFiltered]
    10005 (-1)
  have h2 := post_hooks_run_for_every_result [sampleFull, sampleNone, sampleFiltered]
    1000 (-1)
  ⟨h.1.1.trans (by decide),
    h2.1.1.trans (by decide),
    h.2.1.trans (by decide),
    fun hm => absurd (h.1.2.2.2.1.1 hm) (by decide),
    h.1.2.2.2.2.trans (by decide),
    by decide⟩

/-- C15. For every negative uid the default filter returns 1 (skip): the C++
remainder `uid % 100000` of a negative uid is not positive, so it is never in the
range 10000 to 19999. The uid `-89995`, whose residue modulo 100000 is 10005, is
skipped. -/
theorem shouldSkipUid_negative (uid : Int) (h : uid < 0) :
    shouldSkipUid uid = 1 ∧ Int.tmod uid 100000 ≤ 0 ∧
      shouldSkipUid (-89995) = 1 ∧ (-89995 : Int) % 100000 = 10005 := by
  have ht := tmod_nonpos_of_neg uid h
  refine ⟨?_, ht, by decide, by decide⟩
  unfold shouldSkipUid
  simp only [ge_iff_le]
  split
  · omega
  · rfl

/-- Witness of C15: the uid `-89995`. -/
theorem shouldSkipUid_negative_witness :
    (-89995 : Int) < 0 ∧ shouldSkipUid (-89995) = 1 ∧ Int.tmod (-89995) 100000 ≤ 0 :=
  ⟨by decide, (shouldSkipUid_negative (-89995) (by decide)).1,
    (shouldSkipUid_negative (-89995) (by decide)).2.1⟩

/-- C16. With an empty plugin list every trampoline is transparent: the eleven
fork-and-specialize trampolines, the six specialize-app-process trampolines and
the two fork-system-server trampolines each call the original exactly once, with
the arguments they were called with in the order of their own parameter list (the
Samsung-only `category`, `space`, `accessInfo` and `a1` included), return the
result of that call where they return a value, and do nothing else but call
`restore_replaced_func`: when the result is 0 for fork-and-specialize, always for
specialize-app-process, never for fork-system-server. -/
theorem empty_plugin_list_is_transparent (fnPtr : List JValue → Int)
    (uid gid : Int) (gids : jobject) (debug_flags : Int) (rlimits : jobject)
    (mount_external : Int)
    (se_info se_name fdsToClose instructionSet appDataDir fdsToIgnore : jobject)
    (runtime_flags : Int) (is_child_zygote isTopApp : Bool)
    (pkgDataInfoList whitelistedDataInfoList : jobject)
    (bindMountAppDataDirs bindMountAppStorageDirs : Bool)
    (category accessInfo a1 runtimeFlags mountExternal : Int) (seInfo niceName : jobject)
    (startChildZygote : Bool) (space permittedCapabilities effectiveCapabilities : Int) :
    nativeForkAndSpecialize_marshmallow [] fnPtr
        uid gid gids debug_flags rlimits mount_external se_info se_name fdsToClose
        instructionSet appDataDir =
      transparentFork fnPtr
        [.jint uid, .jint gid, .jobject gids, .jint debug_flags, .jobject rlimits,
        .jint mount_external, .jobject se_info, .jobject se_name, .jobject fdsToClose,
        .jobject instructionSet, .jobject appDataDir] ∧
    nativeForkAndSpecialize_oreo [] fnPtr
        uid gid gids debug_flags rlimits mount_external se_info se_name fdsToClose
        fdsToIgnore instructionSet appDataDir =
      transparentFork fnPtr
        [.jint uid, .jint gid, .jobject gids, .jint debug_flags, .jobject rlimits,
        .jint mount_external, .jobject se_info, .jobject se_name, .jobject fdsToClose,
        .jobject fdsToIgnore, .jobject instructionSet, .jobject appDataDir] ∧
    nativeForkAndSpecialize_p [] fnPtr
        uid gid gids runtime_flags rlimits mount_external se_info se_name fdsToClose
        fdsToIgnore is_child_zygote instructionSet appDataDir =
      transparentFork fnPtr
        [.jint uid, .jint gid, .jobject gids, .jint runtime_flags, .jobject rlimits,
        .jint mount_external, .jobject se_info, .jobject se_name, .jobject fdsToClose,
        .jobject fdsToIgnore, .jboolean is_child_zygote, .jobject instructionSet,
        .jobject appDataDir] ∧
    nativeForkAndSpecialize_q_alternative [] fnPtr
        uid gid gids runtime_flags rlimits mount_external se_info se_name fdsToClose
        fdsToIgnore is_child_zygote instructionSet appDataDir isTopApp =
      transparentFork fnPtr
        [.jint uid, .jint gid, .jobject gids, .jint runtime_flags, .jobject rlimits,
        .jint mount_external, .jobject se_info, .jobject se_name, .jobject fdsToClose,
        .jobject fdsToIgnore, .jboolean is_child_zygote, .jobject instructionSet,
        .jobject appDataDir, .jboolean isTopApp] ∧
    nativeForkAndSpecialize_r [] fnPtr
        uid gid gids runtime_flags rlimits mount_external se_info se_name fdsToClose
        fdsToIgnore is_child_zygote instructionSet appDataDir isTopApp pkgDataInfoList
        whitelistedDataInfoList bindMountAppDataDirs bindMountAppStorageDirs =
      transparentFork fnPtr
        [.jint uid, .jint gid, .jobject gids, .jint runtime_flags, .jobject rlimits,
        .jint mount_external, .jobject se_info, .jobject se_name, .jobject fdsToClose,
        .jobject fdsToIgnore, .jboolean is_child_zygote, .jobject instructionSet,
        .jobject appDataDir, .jboolean isTopApp, .jobject pkgDataInfoList,
        .jobject whitelistedDataInfoList, .jboolean bindMountAppDataDirs,
        .jboolean bindMountAppStorageDirs] ∧
    nativeForkAndSpecialize_r_dp3 [] fnPtr
        uid gid gids runtime_flags rlimits mount_external se_info se_name fdsToClose
        fdsToIgnore is_child_zygote instructionSet appDataDir isTopApp pkgDataInfoList
        bindMountAppStorageDirs =
      transparentFork fnPtr
        [.jint uid, .jint gid, .jobject gids, .jint runtime_flags, .jobject rlimits,
        .jint mount_external, .jobject se_info, .jobject se_name, .jobject fdsToClose,
        .jobject fdsToIgnore, .jboolean is_child_zygote, .jobject instructionSet,
        .jobject appDataDir, .jboolean isTopApp, .jobject pkgDataInfoList,
        .jboolean bindMountAppStorageDirs] ∧
    nativeForkAndSpecialize_r_dp2 [] fnPtr
        uid gid gids runtime_flags rlimits mount_external se_info se_name fdsToClose
        fdsToIgnore is_child_zygote instructionSet appDataDir isTopApp pkgDataInfoList =
      transparentFork fnPtr
        [.jint uid, .jint gid, .jobject gids, .jint runtime_flags, .jobject rlimits,
        .jint mount_external, .jobject se_info, .jobject se_name, .jobject fdsToClose,
        .jobject fdsToIgnore, .jboolean is_child_zygote, .jobject instructionSet,
        .jobject appDataDir, .jboolean isTopApp, .jobject pkgDataInfoList] ∧
    nativeForkAndSpecialize_samsung_p [] fnPtr
        uid gid gids runtime_flags rlimits mount_external se_info category accessInfo se_name
        fdsToClose fdsToIgnore is_child_zygote instructionSet appDataDir =
      transparentFork fnPtr
        [.jint uid, .jint gid, .jobject gids, .jint runtime_flags, .jobject rlimits,
        .jint mount_external, .jobject se_info, .jint category, .jint accessInfo,
        .jobject se_name, .jobject fdsToClose, .jobject fdsToIgnore,
        .jboolean is_child_zygote, .jobject instructionSet, .jobject appDataDir] ∧
    nativeForkAndSpecialize_samsung_o [] fnPtr
        uid gid gids debug_flags rlimits mount_external se_info category accessInfo se_name
        fdsToClose fdsToIgnore instructionSet appDataDir =
      transparentFork fnPtr
        [.jint uid, .jint gid, .jobject gids, .jint debug_flags, .jobject rlimits,
        .jint mount_external, .jobject se_info, .jint category, .jint accessInfo,
        .jobject se_name, .jobject fdsToClose, .jobject fdsToIgnore, .jobject instructionSet,
        .jobject appDataDir] ∧
    nativeForkAndSpecialize_samsung_n [] fnPtr
        uid gid gids debug_flags rlimits mount_external se_info category accessInfo se_name
        fdsToClose instructionSet appDataDir a1 =
      transparentFork fnPtr
        [.jint uid, .jint gid, .jobject gids, .jint debug_flags, .jobject rlimits,
        .jint mount_external, .jobject se_info, .jint category, .jint accessInfo,
        .jobject se_name, .jobject fdsToClose, .jobject instructionSet, .jobject appDataDir,
        .jint a1] ∧
    nativeForkAndSpecialize_samsung_m [] fnPtr
        uid gid gids debug_flags rlimits mount_external se_info category accessInfo se_name
        fdsToClose instructionSet appDataDir =
      transparentFork fnPtr
        [.jint uid, .jint gid, .jobject gids, .jint debug_flags, .jobject rlimits,
        .jint mount_external, .jobject se_info, .jint category, .jint accessInfo,
        .jobject se_name, .jobject fdsToClose, .jobject instructionSet, .jobject appDataDir] ∧
    nativeSpecializeAppProcess_q []
        uid gid gids runtimeFlags rlimits mountExternal seInfo niceName startChildZygote
        instructionSet appDataDir =
      transparentSpecialize
        [.jint uid, .jint gid, .jobject gids, .jint runtimeFlags, .jobject rlimits,
        .jint mountExternal, .jobject seInfo, .jobject niceName, .jboolean startChildZygote,
        .jobject instructionSet, .jobject appDataDir] ∧
    nativeSpecializeAppProcess_q_alternative []
        uid gid gids runtimeFlags rlimits mountExternal seInfo niceName startChildZygote
        instructionSet appDataDir isTopApp =
      transparentSpecialize
        [.jint uid, .jint gid, .jobject gids, .jint runtimeFlags, .jobject rlimits,
        .jint mountExternal, .jobject seInfo, .jobject niceName, .jboolean startChildZygote,
        .jobject instructionSet, .jobject appDataDir, .jboolean isTopApp] ∧
    nativeSpecializeAppProcess_r []
        uid gid gids runtimeFlags rlimits mountExternal seInfo niceName startChildZygote
        instructionSet appDataDir isTopApp pkgDataInfoList whitelistedDataInfoList
        bindMountAppDataDirs bindMountAppStorageDirs =
      transparentSpecialize
        [.jint uid, .jint gid, .jobject gids, .jint runtimeFlags, .jobject rlimits,
        .jint mountExternal, .jobject seInfo, .jobject niceName, .jboolean startChildZygote,
        .jobject instructionSet, .jobject appDataDir, .jboolean isTopApp,
        .jobject pkgDataInfoList, .jobject whitelistedDataInfoList,
        .jboolean bindMountAppDataDirs, .jboolean bindMountAppStorageDirs] ∧
    nativeSpecializeAppProcess_r_dp3 []
        uid gid gids runtimeFlags rlimits mountExternal seInfo niceName startChildZygote
        instructionSet appDataDir isTopApp pkgDataInfoList bindMountAppStorageDirs =
      transparentSpecialize
        [.jint uid, .jint gid, .jobject gids, .jint runtimeFlags, .jobject rlimits,
        .jint mountExternal, .jobject seInfo, .jobject niceName, .jboolean startChildZygote,
        .jobject instructionSet, .jobject appDataDir, .jboolean isTopApp,
        .jobject pkgDataInfoList, .jboolean bindMountAppStorageDirs] ∧
    nativeSpecializeAppProcess_r_dp2 []
        uid gid gids runtimeFlags rlimits mountExternal seInfo niceName startChildZygote
        instructionSet appDataDir isTopApp pkgDataInfoList =
      transparentSpecialize
        [.jint uid, .jint gid, .jobject gids, .jint runtimeFlags, .jobject rlimits,
        .jint mountExternal, .jobject seInfo, .jobject niceName, .jboolean startChildZygote,
        .jobject instructionSet, .jobject appDataDir, .jboolean isTopApp,
        .jobject pkgDataInfoList] ∧
    nativeSpecializeAppProcess_samsung_q []
        uid gid gids runtimeFlags rlimits mountExternal seInfo space accessInfo niceName
        startChildZygote instructionSet appDataDir =
      transparentSpecialize
        [.jint uid, .jint gid, .jobject gids, .jint runtimeFlags, .jobject rlimits,
        .jint mountExternal, .jobject seInfo, .jint space, .jint accessInfo,
        .jobject niceName, .jboolean startChildZygote, .jobject instructionSet,
        .jobject appDataDir] ∧
    nativeForkSystemServer [] fnPtr
        uid gid gids runtimeFlags rlimits permittedCapabilities effectiveCapabilities =
      transparentServer fnPtr
        [.jint uid, .jint gid, .jobject gids, .jint runtimeFlags, .jobject rlimits,
        .jlong permittedCapabilities, .jlong effectiveCapabilities] ∧
    nativeForkSystemServer_samsung_q [] fnPtr
        uid gid gids runtimeFlags space accessInfo rlimits permittedCapabilities
        effectiveCapabilities =
      transparentServer fnPtr
        [.jint uid, .jint gid, .jobject gids, .jint runtimeFlags, .jint space,
        .jint accessInfo, .jobject rlimits, .jlong permittedCapabilities,
        .jlong effectiveCapabilities] := by
  refine ⟨?_, ?_, ?_, ?_, ?_, ?_, ?_, ?_, ?_, ?_, ?_, ?_, ?_, ?_, ?_, ?_, ?_, ?_, ?_⟩ <;>
    simp [nativeForkAndSpecialize_marshmallow, nativeForkAndSpecialize_oreo,
      nativeForkAndSpecialize_p, nativeForkAndSpecialize_q_alternative,
      nativeForkAndSpecialize_r, nativeForkAndSpecialize_r_dp3, nativeForkAndSpecialize_r_dp2,
      nativeForkAndSpecialize_samsung_p, nativeForkAndSpecialize_samsung_o,
      nativeForkAndSpecialize_samsung_n, nativeForkAndSpecialize_samsung_m,
      nativeSpecializeAppProcess_q, nativeSpecializeAppProcess_q_alternative,
      nativeSpecializeAppProcess_r, nativeSpecializeAppProcess_r_dp3,
      nativeSpecializeAppProcess_r_dp2, nativeSpecializeAppProcess_samsung_q,
      nativeForkSystemServer, nativeForkSystemServer_samsung_q,
      nativeForkAndSpecialize_pre, nativeForkAndSpecialize_post, nativeSpecializeAppProcess_pre,
      nativeSpecializeAppProcess_post, nativeForkSystemServer_pre, nativeForkSystemServer_post,
      forEachModule, transparentFork, transparentSpecialize, transparentServer]

end Riru
